import Mathlib

/-!
# ConsultorVirtualBackend — verification of the spec against the code

Shallow embedding of the orchestration core of the repository:
ledger aggregation (aging snapshots, credit-cycle KPIs), the intent
classifier, the period resolver, the orchestration router, the report
synthesizer and the CxC action registry.  Monetary amounts are modelled
as exact rationals (the code accumulates in `Decimal`; conversion to
floating point happens only at the serialization boundary).  Dates are
modelled as integer day numbers and timestamps as integer seconds.
-/

/-! ## Billing records (app/models.py as used by the aggregators)

`FacturaCXC` / `FacturaCXP` rows carry `monto`, `monto_pagado`
(nullable), `fecha_limite` / `fecha_emision` (nullable datetimes) and the
`pagada` flag.  Dates are day numbers; `none` models SQL NULL. -/

structure FacturaCXC where
  monto : Option ℚ
  montoPagado : Option ℚ
  fechaEmision : Option Int
  fechaLimite : Option Int
  pagada : Bool
  idEntidadCliente : Nat
deriving Repr, DecidableEq

structure FacturaCXP where
  monto : Option ℚ
  montoPagado : Option ℚ
  fechaEmision : Option Int
  fechaLimite : Option Int
  pagada : Bool
  idEntidadProveedor : Nat
deriving Repr, DecidableEq

/-- `_saldo_cxc` (app/agents/aaav_cxc/functions.py): unclamped balance
`Decimal((f.monto or 0) - (f.monto_pagado or 0))`. -/
def saldoCxc (f : FacturaCXC) : ℚ :=
  f.monto.getD 0 - f.montoPagado.getD 0

/-- `_saldo_cxp` (app/agents/aaav_cxp/functions.py): same, for payables. -/
def saldoCxp (f : FacturaCXP) : ℚ :=
  f.monto.getD 0 - f.montoPagado.getD 0

/-- `_saldo` (app/repo_finanzas_db.py): clamped outstanding balance,
`s = m - p; return s if s > 0 else 0`. -/
def repoSaldo (monto pagado : Option ℚ) : ℚ :=
  let m := monto.getD 0
  let p := pagado.getD 0
  let s := m - p
  if s > 0 then s else 0

/-! ## Two-sided aging snapshot (`build_aging_cxc_db` / `build_aging_cxp_db`) -/

structure AgingSnapshot where
  overdue_1_30 : ℚ
  overdue_31_60 : ℚ
  overdue_61_90 : ℚ
  overdue_90_plus : ℚ
  current_0_7 : ℚ
  current_8_15 : ℚ
  current_16_30 : ℚ
  current_31_plus : ℚ
  sinFechaLimite : ℚ
  totalOutstanding : ℚ
  totalOverdue : ℚ
  totalCurrent : ℚ
  openInvoices : Nat
deriving Repr, DecidableEq

def AgingSnapshot.init : AgingSnapshot :=
  ⟨0, 0, 0, 0, 0, 0, 0, 0, 0, 0, 0, 0, 0⟩

/-- The eight two-sided aging buckets. -/
inductive Bucket where
  | o1_30 | o31_60 | o61_90 | o90p
  | c0_7 | c8_15 | c16_30 | c31p
deriving Repr, DecidableEq

def Bucket.isOverdueSide : Bucket → Bool
  | .o1_30 | .o31_60 | .o61_90 | .o90p => true
  | _ => false

def AgingSnapshot.bucket (s : AgingSnapshot) : Bucket → ℚ
  | .o1_30 => s.overdue_1_30
  | .o31_60 => s.overdue_31_60
  | .o61_90 => s.overdue_61_90
  | .o90p => s.overdue_90_plus
  | .c0_7 => s.current_0_7
  | .c8_15 => s.current_8_15
  | .c16_30 => s.current_16_30
  | .c31p => s.current_31_plus

/-- Sum of the four overdue buckets of a snapshot. -/
def AgingSnapshot.overdueSum (s : AgingSnapshot) : ℚ :=
  s.overdue_1_30 + s.overdue_31_60 + s.overdue_61_90 + s.overdue_90_plus

/-- Sum of the four current buckets of a snapshot. -/
def AgingSnapshot.currentSum (s : AgingSnapshot) : ℚ :=
  s.current_0_7 + s.current_8_15 + s.current_16_30 + s.current_31_plus

/-- The bucket a record with due date `due` and balance accumulated at
`refDate` lands in, following the `if/elif` chain of `build_aging_cxc_db`. -/
def recordBucket (refDate due : Int) : Bucket :=
  if refDate > due then
    let d := refDate - due
    if 1 ≤ d ∧ d ≤ 30 then .o1_30
    else if 31 ≤ d ∧ d ≤ 60 then .o31_60
    else if 61 ≤ d ∧ d ≤ 90 then .o61_90
    else .o90p
  else
    let d := due - refDate
    if 0 ≤ d ∧ d ≤ 7 then .c0_7
    else if 8 ≤ d ∧ d ≤ 15 then .c8_15
    else if 16 ≤ d ∧ d ≤ 30 then .c16_30
    else .c31p

/-- One loop iteration of `build_aging_cxc_db`, translated from
app/agents/aaav_cxc/functions.py lines 170-208. -/
def agingStepCxc (refDate : Int) (acc : AgingSnapshot) (f : FacturaCXC) :
    AgingSnapshot :=
  let saldo := saldoCxc f
  if saldo ≤ 0 then acc
  else
    let acc := { acc with
      openInvoices := acc.openInvoices + 1
      totalOutstanding := acc.totalOutstanding + saldo }
    match f.fechaLimite with
    | none => { acc with sinFechaLimite := acc.sinFechaLimite + saldo }
    | some due =>
      if refDate > due then
        let d := refDate - due
        let acc := { acc with totalOverdue := acc.totalOverdue + saldo }
        if 1 ≤ d ∧ d ≤ 30 then
          { acc with overdue_1_30 := acc.overdue_1_30 + saldo }
        else if 31 ≤ d ∧ d ≤ 60 then
          { acc with overdue_31_60 := acc.overdue_31_60 + saldo }
        else if 61 ≤ d ∧ d ≤ 90 then
          { acc with overdue_61_90 := acc.overdue_61_90 + saldo }
        else
          { acc with overdue_90_plus := acc.overdue_90_plus + saldo }
      else
        let d := due - refDate
        let acc := { acc with totalCurrent := acc.totalCurrent + saldo }
        if 0 ≤ d ∧ d ≤ 7 then
          { acc with current_0_7 := acc.current_0_7 + saldo }
        else if 8 ≤ d ∧ d ≤ 15 then
          { acc with current_8_15 := acc.current_8_15 + saldo }
        else if 16 ≤ d ∧ d ≤ 30 then
          { acc with current_16_30 := acc.current_16_30 + saldo }
        else
          { acc with current_31_plus := acc.current_31_plus + saldo }

/-- `build_aging_cxc_db(ref_date)`: iterates every `FacturaCXC` row. -/
def buildAgingCxcDb (refDate : Int) (db : List FacturaCXC) : AgingSnapshot :=
  db.foldl (agingStepCxc refDate) AgingSnapshot.init

/-- One loop iteration of `build_aging_cxp_db` (identical bucketing,
payables side). -/
def agingStepCxp (refDate : Int) (acc : AgingSnapshot) (f : FacturaCXP) :
    AgingSnapshot :=
  let saldo := saldoCxp f
  if saldo ≤ 0 then acc
  else
    let acc := { acc with
      openInvoices := acc.openInvoices + 1
      totalOutstanding := acc.totalOutstanding + saldo }
    match f.fechaLimite with
    | none => { acc with sinFechaLimite := acc.sinFechaLimite + saldo }
    | some due =>
      if refDate > due then
        let d := refDate - due
        let acc := { acc with totalOverdue := acc.totalOverdue + saldo }
        if 1 ≤ d ∧ d ≤ 30 then
          { acc with overdue_1_30 := acc.overdue_1_30 + saldo }
        else if 31 ≤ d ∧ d ≤ 60 then
          { acc with overdue_31_60 := acc.overdue_31_60 + saldo }
        else if 61 ≤ d ∧ d ≤ 90 then
          { acc with overdue_61_90 := acc.overdue_61_90 + saldo }
        else
          { acc with overdue_90_plus := acc.overdue_90_plus + saldo }
      else
        let d := due - refDate
        let acc := { acc with totalCurrent := acc.totalCurrent + saldo }
        if 0 ≤ d ∧ d ≤ 7 then
          { acc with current_0_7 := acc.current_0_7 + saldo }
        else if 8 ≤ d ∧ d ≤ 15 then
          { acc with current_8_15 := acc.current_8_15 + saldo }
        else if 16 ≤ d ∧ d ≤ 30 then
          { acc with current_16_30 := acc.current_16_30 + saldo }
        else
          { acc with current_31_plus := acc.current_31_plus + saldo }

/-- `build_aging_cxp_db(ref_date)`: iterates only rows with
`pagada == False` (the CxP query filters on the flag). -/
def buildAgingCxpDb (refDate : Int) (db : List FacturaCXP) : AgingSnapshot :=
  (db.filter (fun f => f.pagada = false)).foldl (agingStepCxp refDate)
    AgingSnapshot.init

/-! ### C1 support lemmas -/

/-- The additive invariant of a snapshot: the eight bucket totals plus the
no-due-date total equal the outstanding total. -/
def AgingSnapshot.balanced (s : AgingSnapshot) : Prop :=
  s.overdueSum + s.currentSum + s.sinFechaLimite = s.totalOutstanding

/-- Concrete open receivable: amount 1000, nothing paid, due at day 90. -/
def facturaScenarioA : FacturaCXC :=
  { monto := some 1000, montoPagado := some 0, fechaEmision := some 80,
    fechaLimite := some 90, pagada := false, idEntidadCliente := 1 }

/-- Concrete open payable: amount 250, 50 paid, due at day 120. -/
def facturaScenarioP : FacturaCXP :=
  { monto := some 250, montoPagado := some 50, fechaEmision := some 80,
    fechaLimite := some 120, pagada := false, idEntidadProveedor := 2 }

/-! ## Open listings and the payables open summary (C3)

`_list_open_db` (app/agents/aaav_cxc/functions.py) lists open receivables
with a status and sorts them by (status rank, days overdue desc,
outstanding desc); `cxp_open_summary_as_of` (app/repo_finanzas_db.py) is
raw SQL counting `pagada = FALSE` rows issued on or before the cutoff. -/

structure OpenRowCxc where
  factura : FacturaCXC
  status : String
  daysOverdue : Option Int
  outstanding : ℚ
deriving Repr, DecidableEq

/-- Row construction of `_list_open_db` for one record: skip when the
balance is not positive, otherwise classify as overdue / open on time /
no due date. -/
def listOpenRowCxc (refDate : Int) (f : FacturaCXC) : Option OpenRowCxc :=
  let saldo := saldoCxc f
  if saldo ≤ 0 then none
  else
    match f.fechaLimite with
    | none => some ⟨f, "no_due_date", none, saldo⟩
    | some due =>
      let daysOverRaw := refDate - due
      if daysOverRaw > 0 then some ⟨f, "overdue", some daysOverRaw, saldo⟩
      else some ⟨f, "open_on_time", some 0, saldo⟩

def openRowRank (status : String) : Nat :=
  if status = "overdue" then 0
  else if status = "open_on_time" then 1
  else if status = "no_due_date" then 2
  else 9

/-- The sort key comparison of `_list_open_db`:
`(order_rank, -days_overdue, -outstanding)` ascending. -/
def openRowLe (a b : OpenRowCxc) : Bool :=
  let ka := openRowRank a.status
  let kb := openRowRank b.status
  if ka ≠ kb then ka < kb
  else
    let da := a.daysOverdue.getD 0
    let dbd := b.daysOverdue.getD 0
    if da ≠ dbd then dbd < da
    else b.outstanding ≤ a.outstanding

/-- `_list_open_db(ref_date)`: open rows, stably sorted. -/
def listOpenDb (refDate : Int) (db : List FacturaCXC) : List OpenRowCxc :=
  (db.filterMap (listOpenRowCxc refDate)).mergeSort openRowLe

structure CxpOpenSummary where
  abiertas : Nat
  saldo : ℚ
deriving Repr, DecidableEq

/-- `cxp_open_summary_as_of(as_of)`: SQL
`COUNT(*), COALESCE(SUM(monto - monto_pagado), 0)` over
`pagada = FALSE AND fecha_emision::date <= :as_of` — note there is no
condition on the balance itself. -/
def cxpOpenSummaryAsOf (asOf : Int) (db : List FacturaCXP) : CxpOpenSummary :=
  let rows := db.filter (fun f =>
    !f.pagada && (match f.fechaEmision with
      | some e => decide (e ≤ asOf)
      | none => false))
  { abiertas := rows.length
    saldo := (rows.filterMap (fun f =>
        match f.monto, f.montoPagado with
        | some m, some p => some (m - p)
        | some _, none => none
        | none, _ => none)).sum }

/-- A payable marked unpaid whose payments already cover the amount. -/
def facturaSobrepagada : FacturaCXP :=
  { monto := some 500, montoPagado := some 600, fechaEmision := some 10,
    fechaLimite := some 15, pagada := false, idEntidadProveedor := 3 }

/-! ## Credit-cycle metric (C2): `FinanzasRepoDB.dso` / `FinanzasRepoDB.dpo`

Invoice dates carry date-level resolution; month bounds are proleptic
Gregorian day ordinals (`datetime(y, m, 1)` etc. in `_month_bounds`). -/

def isLeapYear (y : Nat) : Bool :=
  y % 4 = 0 && (y % 100 ≠ 0 || y % 400 = 0)

def daysInMonth (y m : Nat) : Nat :=
  if m = 2 then (if isLeapYear y then 29 else 28)
  else if m = 4 ∨ m = 6 ∨ m = 9 ∨ m = 11 then 30
  else 31

def daysBeforeYear (y : Nat) : Nat :=
  365 * (y - 1) + (y - 1) / 4 - (y - 1) / 100 + (y - 1) / 400

def daysBeforeMonth (y m : Nat) : Nat :=
  (List.range (m - 1)).foldl (fun acc i => acc + daysInMonth y (i + 1)) 0

/-- Proleptic-Gregorian day ordinal of a calendar date (the unit in which
record dates are stored in this embedding). -/
def dateOrdinal (y m d : Nat) : Int :=
  (daysBeforeYear y + daysBeforeMonth y m + d : Int)

/-- `_month_bounds(year, month)`: first day of the month and first day of
the next month. -/
def monthBounds (y m : Nat) : Int × Int :=
  (dateOrdinal y m 1,
    if m = 12 then dateOrdinal (y + 1) 1 1 else dateOrdinal y (m + 1) 1)

/-- `_window_bounds(end, window_days)`: non-positive (or missing) window
lengths default to 90 days. -/
def windowBounds (endD : Int) (windowDays : Int) : Int × Int :=
  let wd := if windowDays ≤ 0 then 90 else windowDays
  (endD - wd, endD)

/-- `_required_denom`: `max(min_abs_denom, end_balance * min_ratio)` with
a negative ratio clamped to zero and the relative part taken only when
both factors are truthy (which coincides with the plain product). -/
def requiredDenom (endBalance minAbsDenom minRatio : ℚ) : ℚ :=
  let ratio := if minRatio < 0 then 0 else minRatio
  let rel := if endBalance ≠ 0 ∧ ratio ≠ 0 then endBalance * ratio else 0
  max minAbsDenom rel

/-- `FinanzasRepoDB._ar_end`: clamped balances of receivables issued
strictly before `end`. -/
def arEnd (db : List FacturaCXC) (endD : Int) : ℚ :=
  (db.filter (fun f => match f.fechaEmision with
    | some e => decide (e < endD)
    | none => false)).foldl
    (fun acc f => acc + repoSaldo f.monto f.montoPagado) 0

/-- `FinanzasRepoDB._ap_end`: same, payables side. -/
def apEnd (db : List FacturaCXP) (endD : Int) : ℚ :=
  (db.filter (fun f => match f.fechaEmision with
    | some e => decide (e < endD)
    | none => false)).foldl
    (fun acc f => acc + repoSaldo f.monto f.montoPagado) 0

/-- `FinanzasRepoDB._sales_between`: gross amounts of receivables issued
in `[start, end)`. -/
def salesBetween (db : List FacturaCXC) (startD endD : Int) : ℚ :=
  (db.filter (fun f => match f.fechaEmision with
    | some e => decide (startD ≤ e) && decide (e < endD)
    | none => false)).foldl (fun acc f => acc + f.monto.getD 0) 0

/-- `FinanzasRepoDB._purchases_between`: same, payables side. -/
def purchasesBetween (db : List FacturaCXP) (startD endD : Int) : ℚ :=
  (db.filter (fun f => match f.fechaEmision with
    | some e => decide (startD ≤ e) && decide (e < endD)
    | none => false)).foldl (fun acc f => acc + f.monto.getD 0) 0

/-- Result dictionary of `dso` / `dpo`.  The Python reason strings carry
interpolated figures; only their presence matters here. -/
structure CreditCycleResult where
  value : Option ℚ
  method : String
  reason : Option String
  windowStart : Int
  windowEnd : Int
  windowDaysOut : Int
  denom : ℚ
  endBalance : ℚ
  requiredDenomOut : ℚ
deriving Repr, DecidableEq

/-- `FinanzasRepoDB.dso(year, month, window_days, min_denominator,
min_abs_denom, min_ratio)`, translated clause by clause. -/
def repoDso (db : List FacturaCXC) (year month : Nat) (windowDays : Int)
    (minDenominator minAbsDenom minRatio : ℚ) : CreditCycleResult :=
  let mb := monthBounds year month
  let tb := windowBounds mb.2 windowDays
  let ar := arEnd db mb.2
  let required := max (requiredDenom ar minAbsDenom minRatio) minDenominator
  let salesMonth := salesBetween db mb.1 mb.2
  if salesMonth ≥ required then
    let days := mb.2 - mb.1
    { value := some (ar / salesMonth * days), method := "month",
      reason := none, windowStart := mb.1, windowEnd := mb.2,
      windowDaysOut := days, denom := salesMonth, endBalance := ar,
      requiredDenomOut := required }
  else
    let salesTrailing := salesBetween db tb.1 tb.2
    if salesTrailing < required then
      { value := none, method := "trailing_90d",
        reason := some "Ventas insuficientes para estimar DSO con confianza",
        windowStart := tb.1, windowEnd := tb.2, windowDaysOut := windowDays,
        denom := salesTrailing, endBalance := ar,
        requiredDenomOut := required }
    else
      { value := some (ar / salesTrailing * windowDays),
        method := "trailing_90d",
        reason := some "Ventas del mes insuficientes; se usó ventana trailing",
        windowStart := tb.1, windowEnd := tb.2, windowDaysOut := windowDays,
        denom := salesTrailing, endBalance := ar,
        requiredDenomOut := required }

/-- `FinanzasRepoDB.dpo`: identical structure over purchases. -/
def repoDpo (db : List FacturaCXP) (year month : Nat) (windowDays : Int)
    (minDenominator minAbsDenom minRatio : ℚ) : CreditCycleResult :=
  let mb := monthBounds year month
  let tb := windowBounds mb.2 windowDays
  let ap := apEnd db mb.2
  let required := max (requiredDenom ap minAbsDenom minRatio) minDenominator
  let purchasesMonth := purchasesBetween db mb.1 mb.2
  if purchasesMonth ≥ required then
    let days := mb.2 - mb.1
    { value := some (ap / purchasesMonth * days), method := "month",
      reason := none, windowStart := mb.1, windowEnd := mb.2,
      windowDaysOut := days, denom := purchasesMonth, endBalance := ap,
      requiredDenomOut := required }
  else
    let purchasesTrailing := purchasesBetween db tb.1 tb.2
    if purchasesTrailing < required then
      { value := none, method := "trailing_90d",
        reason := some "Compras insuficientes para estimar DPO con confianza",
        windowStart := tb.1, windowEnd := tb.2, windowDaysOut := windowDays,
        denom := purchasesTrailing, endBalance := ap,
        requiredDenomOut := required }
    else
      { value := some (ap / purchasesTrailing * windowDays),
        method := "trailing_90d",
        reason := some "Compras del mes insuficientes; se usó ventana trailing",
        windowStart := tb.1, windowEnd := tb.2, windowDaysOut := windowDays,
        denom := purchasesTrailing, endBalance := ap,
        requiredDenomOut := required }

/-! ## CxC agent: period plumbing, context and the action registry (C10)

`run_action` (app/agents/aaav_cxc/functions.py) resolves the period,
builds the base context and dispatches on `ACTIONS.get(action,
action_metrics)`.  Store reads are modelled as `Except`: `.error` is a
raised exception at that query site; `build_context` catches the DSO and
aging query errors, action handlers do not catch theirs. -/

structure Entidad where
  idEntidad : Nat
  nombreLegal : String
  nombreComercial : Option String
deriving Repr, DecidableEq

/-- The `text` field of a period window: either a `fecha:YYYY-MM-DD`
marker (carrying the day ordinal), a `YYYY-MM` label, or free text. -/
inductive PeriodText where
  | fecha (d : Int)
  | ym (y m : Nat)
  | raw (s : String)
deriving Repr, DecidableEq

structure CalDate where
  y : Nat
  m : Nat
  d : Nat
deriving Repr, DecidableEq

def CalDate.ordinal (dt : CalDate) : Int := dateOrdinal dt.y dt.m dt.d

structure PeriodWindow where
  text : PeriodText
  start : CalDate
  stop : CalDate
deriving Repr, DecidableEq

/-- `month_window('YYYY-MM')` lives in app/tools/calc_kpis.py, which is
not under src/; per the spec a month label resolves to the enclosing
calendar month, first day through last day. -/
def monthWindow (y m : Nat) : CalDate × CalDate :=
  (⟨y, m, 1⟩, ⟨y, m, daysInMonth y m⟩)

structure PeriodRangeDict where
  start : CalDate
  stop : CalDate
  text : Option PeriodText
deriving Repr, DecidableEq

/-- Agent payload: `period_range` (router dict, already merged with
`state.period`) and the sidebar `period` string parsed as year/month. -/
structure CxcPayload where
  periodRange : Option PeriodRangeDict
  period : Option (Nat × Nat)
deriving Repr, DecidableEq

/-- `resolve_period(payload, state)`: range dict wins, then the
`YYYY-MM` string, then the current month. -/
def resolvePeriodCxc (payload : CxcPayload) (today : Nat × Nat) :
    PeriodWindow :=
  match payload.periodRange with
  | some pr =>
    { text := pr.text.getD (PeriodText.ym pr.start.y pr.start.m),
      start := pr.start, stop := pr.stop }
  | none =>
    match payload.period with
    | some (y, m) =>
      let w := monthWindow y m
      { text := PeriodText.ym y m, start := w.1, stop := w.2 }
    | none =>
      let w := monthWindow today.1 today.2
      { text := PeriodText.ym today.1 today.2, start := w.1, stop := w.2 }

/-- `resolve_ref_date(win)`: a `fecha:YYYY-MM-DD` marker in the window
text wins, otherwise the window end date. -/
def resolveRefDate (win : PeriodWindow) : Int :=
  match win.text with
  | .fecha d => d
  | _ => win.stop.ordinal

structure CxcStore where
  dsoQuery : Except String (List FacturaCXC)
  agingQuery : Except String (List FacturaCXC)
  actionQuery : Except String (List FacturaCXC)
  entidades : List Entidad

/-- `data_norm` of `build_context` (display-only keys such as
`aging_explain` elided; the legacy `aging` mirror kept). -/
structure CxcDataNorm where
  period : PeriodText
  kpiDSO : Option ℚ
  calcBasisDSO : Option CreditCycleResult
  agingPack : AgingSnapshot
  agingLegacy : ℚ × ℚ × ℚ × ℚ
deriving Repr, DecidableEq

structure CxcContext where
  periodWindow : PeriodWindow
  refDate : Int
  kpiDso : Option ℚ
  dataNorm : CxcDataNorm
  agingPack : AgingSnapshot
deriving Repr, DecidableEq

/-- `build_context(win, ref_date)`: the DSO error is swallowed
(`calcBasisDSO = none` stands for the `"Error calculando DSO."` pack);
an aging query error yields the `{"error": ...}` dictionary, modelled as
`Except.error`. -/
def buildContextCxc (store : CxcStore) (win : PeriodWindow)
    (refDate : Int) : Except String CxcContext :=
  let dsoPack : Option CreditCycleResult :=
    match store.dsoQuery with
    | .error _ => none
    | .ok rows => some (repoDso rows win.start.y win.start.m 90 1 10000 (1/10))
  let kpiDso := dsoPack.bind (fun p => p.value)
  match store.agingQuery with
  | .error e => .error ("Error leyendo CxC DB: " ++ e)
  | .ok rows =>
    let pack := buildAgingCxcDb refDate rows
    let norm : CxcDataNorm :=
      { period := win.text
        kpiDSO := kpiDso
        calcBasisDSO := dsoPack
        agingPack := pack
        agingLegacy := (pack.overdue_1_30, pack.overdue_31_60,
          pack.overdue_61_90, pack.overdue_90_plus) }
    .ok { periodWindow := win, refDate := refDate, kpiDso := kpiDso,
          dataNorm := norm, agingPack := pack }

structure CxcParams where
  n : Option Int
  customer : Option String
  minDays : Option Int
  maxDays : Option Int
deriving Repr, DecidableEq

structure ByCustomerRow where
  customer : Nat
  invoices : Nat
  totalOutstanding : ℚ
deriving Repr, DecidableEq

inductive CxcActionData where
  | topOverdue (table : List OpenRowCxc)
  | customerBalance (totalOutstanding : ℚ) (table : List OpenRowCxc)
  | listOpen (table : List OpenRowCxc)
  | listOverdue (totalOverdue : ℚ) (countOverdue : Nat)
      (byCustomer : List ByCustomerRow) (table : List OpenRowCxc)
deriving Repr, DecidableEq

structure CxcActionResult where
  error : Option String
  summary : Option String
  data : Option CxcDataNorm
  dso : Option ℚ
  result : Option CxcActionData
deriving Repr, DecidableEq

/-- Descending stable order on `(days_overdue, outstanding)` used by
`_list_top_overdue_db` and `action_list_overdue` (`reverse=True`). -/
def topOverdueLe (a b : OpenRowCxc) : Bool :=
  let da := a.daysOverdue.getD 0
  let dbd := b.daysOverdue.getD 0
  if da ≠ dbd then dbd < da else b.outstanding ≤ a.outstanding

/-- `_list_top_overdue_db(limit_n, ref_date)` (customer display-name
join elided; rows carry the source record). -/
def listTopOverdueDb (limitN : Int) (refDate : Int)
    (rows : List FacturaCXC) : List OpenRowCxc :=
  ((rows.filterMap (fun f =>
    let saldo := saldoCxc f
    if saldo ≤ 0 then none
    else match f.fechaLimite with
      | none => none
      | some due =>
        let daysOver := refDate - due
        if daysOver ≤ 0 then none
        else some (⟨f, "overdue", some daysOver, saldo⟩ : OpenRowCxc))
   ).mergeSort topOverdueLe).take limitN.toNat

def lowerStr (s : String) : String := s.map Char.toLower

/-- `_customer_balance_db(name_or_id, ref_date)`: exact case-insensitive
legal-name match first, then the target parsed as an id. -/
def customerBalanceDb (entidades : List Entidad) (rows : List FacturaCXC)
    (target : String) (refDate : Int) : ℚ × List OpenRowCxc :=
  let byName := entidades.find? (fun e =>
    lowerStr e.nombreLegal = lowerStr target.trim)
  let custId : Option Nat :=
    match byName with
    | some e => some e.idEntidad
    | none => target.trim.toNat?
  let selected : List FacturaCXC := match custId with
    | some cid => rows.filter (fun f => f.idEntidadCliente == cid)
    | none => rows
  let tbl := selected.filterMap (fun f =>
    let saldo := saldoCxc f
    if saldo ≤ 0 then none
    else
      let daysOver : Option Int := f.fechaLimite.map
        (fun due => max (refDate - due) 0)
      some (⟨f, "", daysOver, saldo⟩ : OpenRowCxc))
  ((tbl.map (fun r => r.outstanding)).sum, tbl)

def actionMetrics (ctx : CxcContext) (_params : CxcParams) :
    CxcActionResult :=
  { error := none,
    summary := some ("CxC calculado (DB) — " ++
      toString ctx.agingPack.openInvoices ++ " facturas abiertas"),
    data := some ctx.dataNorm, dso := ctx.kpiDso, result := none }

def actionTopOverdue (store : CxcStore) (ctx : CxcContext)
    (params : CxcParams) : Except String CxcActionResult := do
  let rows ← store.actionQuery
  .ok { error := none,
        summary := some "Top facturas por cobrar vencidas (más urgentes)",
        data := some ctx.dataNorm, dso := ctx.kpiDso,
        result := some (.topOverdue
          (listTopOverdueDb (params.n.getD 10) ctx.refDate rows)) }

def actionCustomerBalance (store : CxcStore) (ctx : CxcContext)
    (params : CxcParams) : Except String CxcActionResult :=
  match params.customer with
  | none =>
    .ok { error := some "Falta 'customer' en params", summary := none,
          data := none, dso := none, result := none }
  | some cust => do
    let rows ← store.actionQuery
    let res := customerBalanceDb store.entidades rows cust ctx.refDate
    .ok { error := none,
          summary := some ("Saldo pendiente con el cliente '" ++ cust ++ "'"),
          data := some ctx.dataNorm, dso := ctx.kpiDso,
          result := some (.customerBalance res.1 res.2) }

def actionListOpen (store : CxcStore) (ctx : CxcContext)
    (_params : CxcParams) : Except String CxcActionResult := do
  let rows ← store.actionQuery
  .ok { error := none, summary := some "Cuentas por cobrar abiertas",
        data := some ctx.dataNorm, dso := ctx.kpiDso,
        result := some (.listOpen (listOpenDb ctx.refDate rows)) }

/-- `by_customer` accumulation of `action_list_overdue`
(insertion-ordered `setdefault` map, keyed here by customer id). -/
def groupByCustomer (rows : List OpenRowCxc) : List ByCustomerRow :=
  rows.foldl (fun acc r =>
    let cid := r.factura.idEntidadCliente
    if acc.any (fun b => b.customer = cid) then
      acc.map (fun b =>
        if b.customer = cid then
          { b with
            invoices := b.invoices + 1
            totalOutstanding := b.totalOutstanding + r.outstanding }
        else b)
    else acc ++ [⟨cid, 1, r.outstanding⟩]) []

def actionListOverdue (store : CxcStore) (ctx : CxcContext)
    (params : CxcParams) : Except String CxcActionResult := do
  let rows ← store.actionQuery
  let tableAll := listOpenDb ctx.refDate rows
  let overdue := tableAll.filter (fun r => r.status = "overdue")
  let pMin := params.minDays.getD 1
  let overdue : List OpenRowCxc := match params.maxDays with
    | some pMax => overdue.filter (fun r =>
        decide (pMin ≤ r.daysOverdue.getD 0) &&
          decide (r.daysOverdue.getD 0 ≤ pMax))
    | none => overdue.filter (fun r => decide (pMin ≤ r.daysOverdue.getD 0))
  let overdue := overdue.mergeSort topOverdueLe
  let byCustomer := (groupByCustomer overdue).mergeSort
    (fun a b => b.totalOutstanding ≤ a.totalOutstanding)
  let totalOverdue := (overdue.map (fun r => r.outstanding)).sum
  .ok { error := none, summary := some "Facturas CxC vencidas (detalle)",
        data := some ctx.dataNorm, dso := ctx.kpiDso,
        result := some (.listOverdue totalOverdue overdue.length
          byCustomer overdue) }

/-- The `ACTIONS` registry: exactly five keys. -/
def lookupCxcAction (a : String) :
    Option (CxcStore → CxcContext → CxcParams →
      Except String CxcActionResult) :=
  if a = "metrics" then some (fun _ ctx p => .ok (actionMetrics ctx p))
  else if a = "top_overdue" then some actionTopOverdue
  else if a = "customer_balance" then some actionCustomerBalance
  else if a = "list_open" then some actionListOpen
  else if a = "list_overdue" then some actionListOverdue
  else none

/-- `run_action(action, payload, params, state)`: period, context, then
`ACTIONS.get(action, action_metrics)`. -/
def runActionCxc (store : CxcStore) (action : String)
    (payload : CxcPayload) (params : CxcParams) (today : Nat × Nat) :
    Except String CxcActionResult :=
  let win := resolvePeriodCxc payload today
  let refDate := resolveRefDate win
  match buildContextCxc store win refDate with
  | .error e =>
    .ok { error := some e, summary := none, data := none, dso := none,
          result := none }
  | .ok ctx =>
    ((lookupCxcAction action).getD (fun _ ctx p =>
      .ok (actionMetrics ctx p))) store ctx params

/-- Intent dict read by the CxC agent's `handle` (app/agents/aaav_cxc/
logic.py). -/
structure CxcIntentFlags where
  vencimientosRango : Bool
  topClientesCxc : Bool
  vencenHoyCxc : Bool
  cxcPagoParcial : Bool
  pagoParcialCxc : Bool
  saldoClienteCxc : Bool
deriving Repr, DecidableEq

/-- Action remapping of `Agent.handle`: an empty or `"metrics"` forced
action is remapped from intent flags. -/
def cxcSelectAction (actionRaw : String) (intent : CxcIntentFlags) :
    String :=
  if actionRaw = "" ∨ actionRaw = "metrics" then
    if intent.vencimientosRango then "cxc_due_between"
    else if intent.topClientesCxc then "cxc_top_clients_open"
    else if intent.vencenHoyCxc then "cxc_invoices_due_on"
    else if intent.cxcPagoParcial ∨ intent.pagoParcialCxc then
      "cxc_partial_payments"
    else if intent.saldoClienteCxc then "cxc_customer_open_balance_on"
    else "metrics"
  else actionRaw

def emptyCxcStore : CxcStore :=
  { dsoQuery := .ok [], agingQuery := .ok [], actionQuery := .ok [],
    entidades := [] }

def emptyCxcPayload : CxcPayload := { periodRange := none, period := none }

def emptyCxcParams : CxcParams :=
  { n := none, customer := none, minDays := none, maxDays := none }

/-! ## Orchestration router (C5, C6): `Router.dispatch`

Modules are behaviours `String → Except String ModuleResult`: `.error`
is an exception escaping `agent.handle` (the dispatch loop catches only
`TypeError`), `.ok` a returned dictionary, error-tagged or not. -/

structure ModuleResult where
  error : Option String
  dso : Option ℚ
  dpo : Option ℚ
deriving Repr, DecidableEq

/-- Trace-entry view of a CxC action result (`result["agent"] = name`
happens at the router). -/
def CxcActionResult.toModuleResult (r : CxcActionResult) : ModuleResult :=
  { error := r.error, dso := r.dso, dpo := none }

/-- `_dedup_preserving_order`. -/
def dedupPreservingOrder (names : List String) : List String :=
  names.foldl (fun acc n => if n ∈ acc then acc else acc ++ [n]) []

def execModules (behavior : String → Except String ModuleResult) :
    List String → Except String (List (String × ModuleResult))
  | [] => .ok []
  | a :: rest => do
    let r ← behavior a
    let others ← execModules behavior rest
    .ok ((a, r) :: others)

structure RouterOut where
  noSignal : Bool
  moduleTrace : List (String × ModuleResult)
  gerenteInput : Option (List (String × ModuleResult))
  gerenteResult : Option ModuleResult
  executedOrder : List String
deriving Repr, DecidableEq

/-- `Router.dispatch` from module selection onwards (period resolution
and payload assembly elided; `agent_sequence` is the deduplicated
selection).  Receivables/payables force the consolidation module onto
the sequence; all non-consolidation modules run first; consolidation
runs when selected or when a receivable/payable entry is error-free; the
synthesizer (`av_gerente`) runs last over the full trace. -/
def routerDispatch (selected : List String)
    (behavior : String → Except String ModuleResult)
    (gerente : List (String × ModuleResult) → ModuleResult) :
    Except String RouterOut :=
  let seq0 := dedupPreservingOrder selected
  let seq :=
    if ("aaav_cxc" ∈ seq0 ∨ "aaav_cxp" ∈ seq0) ∧ "aav_contable" ∉ seq0
    then seq0 ++ ["aav_contable"] else seq0
  if seq.isEmpty then
    .ok { noSignal := true, moduleTrace := [], gerenteInput := none,
          gerenteResult := none, executedOrder := [] }
  else
    let nonCont := seq.filter (fun a => a ≠ "aav_contable")
    match execModules behavior nonCont with
    | .error e => .error e
    | .ok trace =>
      let cxcOk := trace.any (fun e =>
        e.1 == "aaav_cxc" && e.2.error == none)
      let cxpOk := trace.any (fun e =>
        e.1 == "aaav_cxp" && e.2.error == none)
      let runCont := seq.contains "aav_contable" || cxcOk || cxpOk
      let finish := fun (trace2 : List (String × ModuleResult)) =>
        Except.ok (ε := String)
          { noSignal := false, moduleTrace := trace2,
            gerenteInput := some trace2,
            gerenteResult := some (gerente trace2),
            executedOrder := trace2.map Prod.fst ++ ["av_gerente"] }
      if runCont then
        match behavior "aav_contable" with
        | .error e => .error e
        | .ok c => finish (trace ++ [("aav_contable", c)])
      else finish trace

def constModuleResult : ModuleResult :=
  { error := none, dso := none, dpo := none }

/-- The trace entry produced by a caught CxC aging-query failure. -/
def errCxcModuleResult (e : String) : ModuleResult :=
  { error := some ("Error leyendo CxC DB: " ++ e), dso := none, dpo := none }

def constGerente : List (String × ModuleResult) → ModuleResult :=
  fun _ => constModuleResult

def storeAgingFails : CxcStore :=
  { dsoQuery := .ok [], agingQuery := .error "boom", actionQuery := .ok [],
    entidades := [] }

def storeActionRaises : CxcStore :=
  { dsoQuery := .ok [], agingQuery := .ok [],
    actionQuery := .error "db down", entidades := [] }

def cxcRaisingBehavior : String → Except String ModuleResult := fun a =>
  if a = "aaav_cxc" then
    (runActionCxc storeActionRaises "top_overdue" emptyCxcPayload
      emptyCxcParams (2025, 9)).map CxcActionResult.toModuleResult
  else .ok constModuleResult

/-! ## Formatters (app/tools/formatters.py)

Monetary/day values reach the formatter as numbers; the embedding keeps
them as exact rationals and renders fixed-point decimals with banker's
rounding (the tie rule of Python's float formatting) at this
serialization boundary. -/

/-- Round `q * 10^scaleDigits` to the nearest integer, ties to even. -/
def roundHalfEvenScaled (q : ℚ) (scaleDigits : Nat) : Int :=
  let x := q * (10 ^ scaleDigits : ℚ)
  let fl := ⌊x⌋
  let frac := x - fl
  if frac < 1/2 then fl
  else if 1/2 < frac then fl + 1
  else if fl % 2 = 0 then fl else fl + 1

/-- Insert thousands separators into a digit string. -/
def groupThousands (s : String) : String :=
  let rec go : List Char → Nat → List Char
    | [], _ => []
    | c :: rest, k =>
      if k % 3 = 0 ∧ k ≠ 0 then c :: ',' :: go rest (k + 1)
      else c :: go rest (k + 1)
  String.mk ((go s.toList.reverse 0).reverse)

def padZeros (s : String) (width : Nat) : String :=
  if s.length ≥ width then s
  else String.mk (List.replicate (width - s.length) '0') ++ s

/-- Fixed-point decimal rendering: `{:,.2f}`-style. -/
def formatFixed (q : ℚ) (decimals : Nat) (thousands : Bool) : String :=
  let scale := 10 ^ decimals
  let n := roundHalfEvenScaled q decimals
  let na := n.natAbs
  let ip := na / scale
  let fp := na % scale
  let ipStr := if thousands then groupThousands (toString ip)
    else toString ip
  (if n < 0 then "-" else "") ++ ipStr ++
    (if decimals = 0 then "" else "." ++ padZeros (toString fp) decimals)

/-- `format_currency(value)`: `'₡80,899.99'`, `'N/D'` for null. -/
def formatCurrency (v : Option ℚ) : String :=
  match v with
  | none => "N/D"
  | some q => "₡" ++ formatFixed q 2 true

/-- `format_days(value)`: `'31.0 días'`, `'N/D'` for null. -/
def formatDays (v : Option ℚ) : String :=
  match v with
  | none => "N/D"
  | some q => formatFixed q 1 false ++ " días"

/-! ## Report synthesizer (C4): `Agent._post_process_report`,
`Agent._fallback_report` and the `handle` fallback path
(app/agents/av_gerente/logic.py). -/

structure GerenteKpis where
  dso : Option ℚ
  dpo : Option ℚ
  ccc : Option ℚ
deriving Repr, DecidableEq

/-- `_extract_operational_totals` output. -/
structure OpTotals where
  arOutstanding : Option ℚ
  arOpenInvoices : Option Int
  apOutstanding : Option ℚ
  apOpenInvoices : Option Int
  nwcProxy : Option ℚ
deriving Repr, DecidableEq

structure Orden where
  title : String
  owner : String
  kpi : String
  due : String
deriving Repr, DecidableEq

/-- Report dictionary shape (`executive_decision_bsc`); `none` models a
key the narrative backend did not emit. -/
structure GerenteReport where
  resumenEjecutivo : Option String
  hallazgos : Option (List String)
  riesgos : Option (List String)
  recomendaciones : Option (List String)
  bscFinanzas : Option (List String)
  bscClientes : Option (List String)
  bscProcesos : Option (List String)
  bscAprendizaje : Option (List String)
  causalidadHipotesis : Option (List String)
  ordenesPrioritarias : Option (List Orden)
deriving Repr, DecidableEq

/-- FMT-02: the six deterministic `bsc.finanzas` lines. -/
def kpiBoardLines (k : GerenteKpis) (op : OpTotals) : List String :=
  let arOpen := op.arOpenInvoices.getD 0
  let apOpen := op.apOpenInvoices.getD 0
  [ "DSO: " ++ formatDays k.dso,
    "DPO: " ++ formatDays k.dpo,
    "CCC: " ++ formatDays k.ccc,
    "CxC abiertas: " ++ formatCurrency op.arOutstanding ++ " en " ++
      toString arOpen ++ " facturas",
    "CxP abiertas: " ++ formatCurrency op.apOutstanding ++ " en " ++
      toString apOpen ++ " facturas",
    if op.nwcProxy.isSome then "NWC proxy: " ++ formatCurrency op.nwcProxy
    else "NWC proxy: N/D" ]

/-- The sentence appended to `resumen_ejecutivo` by the post-pass. -/
def extraResumenLine (op : OpTotals) : String :=
  let base := " En este período, las cuentas por cobrar abiertas suman " ++
    formatCurrency op.arOutstanding ++ " en " ++
    toString (op.arOpenInvoices.getD 0) ++
    " facturas, las cuentas por pagar abiertas ascienden a " ++
    formatCurrency op.apOutstanding ++ " en " ++
    toString (op.apOpenInvoices.getD 0) ++ " facturas, "
  if op.nwcProxy.isSome then
    base ++ "y el capital de trabajo operativo proxy (NWC) es de " ++
      formatCurrency op.nwcProxy ++ "."
  else
    base ++ "y el capital de trabajo operativo proxy (NWC) se reporta como N/D."

/-- `list(dict.fromkeys(...))`: deduplicate preserving first occurrence. -/
def dedupStrings (l : List String) : List String :=
  l.foldl (fun acc s => if s ∈ acc then acc else acc ++ [s]) []

/-- Order merge of the post-pass: narrative orders first, deterministic
orders fill gaps, deduplicated by title, empty titles dropped. -/
def mergeOrdersByTitle (orders : List Orden) : List Orden :=
  (orders.foldl (fun (acc : List String × List Orden) o =>
    if o.title = "" ∨ o.title ∈ acc.1 then acc
    else (acc.1 ++ [o.title], acc.2 ++ [o])) ([], [])).2

/-- `_post_process_report`: overwrites `bsc.finanzas` with the
deterministic board, appends the deterministic KPI sentence to the
summary, merges causal hypotheses (capped at 10) and orders. -/
def postProcessReport (report : GerenteReport) (k : GerenteKpis)
    (op : OpTotals) (detOrders : List Orden)
    (causalTrad causalLlm : List String) : GerenteReport :=
  let extraLine := extraResumenLine op
  let resumen :=
    match report.resumenEjecutivo with
    | some s => if s.trim ≠ "" then s.trim ++ " " ++ extraLine
                else extraLine.trim
    | none => extraLine.trim
  { report with
    bscFinanzas := some (kpiBoardLines k op)
    resumenEjecutivo := some resumen
    causalidadHipotesis := some ((dedupStrings
      ((report.causalidadHipotesis.getD []) ++ causalTrad ++
        causalLlm)).take 10)
    ordenesPrioritarias := some (mergeOrdersByTitle
      ((report.ordenesPrioritarias.getD []) ++ detOrders)) }

/-- `_fallback_report`: the fully deterministic report (its six
`bsc.finanzas` lines are spelled out as in the source, independently of
the post-pass). -/
def fallbackReport (k : GerenteKpis) (op : OpTotals)
    (causalTrad causalLlm : List String) : GerenteReport :=
  let dsoTxt := formatDays k.dso
  let dpoTxt := formatDays k.dpo
  let cccTxt := formatDays k.ccc
  let arTxt := formatCurrency op.arOutstanding
  let apTxt := formatCurrency op.apOutstanding
  let nwcTxt := formatCurrency op.nwcProxy
  let arOpen := op.arOpenInvoices.getD 0
  let apOpen := op.apOpenInvoices.getD 0
  let hallazgos0 : List String :=
    (if k.dso.any (fun v => decide (v > 45)) then
      ["DSO por encima del umbral (>45 días): " ++ dsoTxt ++ "."] else []) ++
    (if k.dpo.any (fun v => decide (v < 40)) then
      ["DPO por debajo del umbral (<40 días): " ++ dpoTxt ++ "."] else []) ++
    (if k.ccc.any (fun v => decide (v > 20)) then
      ["CCC elevado (>20 días): " ++ cccTxt ++ "."] else [])
  let reco0 : List String :=
    (if k.dso.any (fun v => decide (v > 45)) then
      ["Campaña dunning top-10 clientes (30-60-90)."] else []) ++
    (if k.dpo.any (fun v => decide (v < 40)) then
      ["Renegociar 2–3 proveedores para ampliar plazos."] else []) ++
    (if k.ccc.any (fun v => decide (v > 20)) then
      ["Calendario AR/AP semanal y control de gastos no esenciales (30d)."]
     else [])
  let hallazgos := if hallazgos0.isEmpty then
    ["KPIs dentro de rangos razonables para el mes."] else hallazgos0
  let reco := if hallazgos0.isEmpty then
    ["Mantener disciplina de caja y seguimiento semanal de aging."]
    else reco0
  let riesgos0 : List String :=
    (if k.ccc.any (fun v => decide (v > 0)) then
      ["Presión de caja por ciclo de conversión positivo."] else []) ++
    (if (match k.dso, k.dpo with
         | some a, some b => decide (a - b > 10)
         | _, _ => false) then
      ["Desbalance entre cobros y pagos (DSO mucho mayor que DPO)."]
     else [])
  let riesgos := if riesgos0.isEmpty then
    ["Riesgo moderado; continuar monitoreo semanal de AR/AP."] else riesgos0
  let resumen0 := "KPIs: DSO=" ++ dsoTxt ++ ", DPO=" ++ dpoTxt ++
    ", CCC=" ++ cccTxt ++ ". Las cuentas por cobrar abiertas suman " ++
    arTxt ++ " en " ++ toString arOpen ++
    " facturas, y las cuentas por pagar abiertas ascienden a " ++ apTxt ++
    " en " ++ toString apOpen ++ " facturas. "
  let resumen1 := if op.nwcProxy.isSome then
    resumen0 ++ "El capital de trabajo operativo proxy (NWC) es de " ++
      nwcTxt ++ ". "
    else resumen0
  { resumenEjecutivo := some (resumen1 ++
      "Informe estructurado con acciones tácticas para liquidez.")
    hallazgos := some hallazgos
    riesgos := some riesgos
    recomendaciones := some reco
    bscFinanzas := some
      [ "DSO: " ++ dsoTxt,
        "DPO: " ++ dpoTxt,
        "CCC: " ++ cccTxt,
        "CxC abiertas: " ++ arTxt ++ " en " ++ toString arOpen ++
          " facturas",
        "CxP abiertas: " ++ apTxt ++ " en " ++ toString apOpen ++
          " facturas",
        if op.nwcProxy.isSome then "NWC proxy: " ++ nwcTxt
        else "NWC proxy: N/D" ]
    bscClientes := some ["Sin datos de NPS/Churn en este corte."]
    bscProcesos := some ["Revisión de aging AR/AP semanal."]
    bscAprendizaje := some
      ["Playbooks de cobranza y negociación de proveedores."]
    causalidadHipotesis := some
      ((dedupStrings (causalTrad ++ causalLlm)).take 10)
    ordenesPrioritarias := some [] }

/-- `Agent.handle`, narrative stage onwards: a parsed dict goes through
the post-pass; a failed call or unparseable output (`llmOut = none`)
yields the deterministic fallback with the deterministic orders. -/
def gerenteHandle (k : GerenteKpis) (op : OpTotals)
    (detOrders : List Orden) (causalTrad : List String)
    (llmOut : Option GerenteReport) : GerenteReport :=
  match llmOut with
  | none =>
    let fb := fallbackReport k op causalTrad []
    { fb with ordenesPrioritarias := some detOrders }
  | some rj =>
    postProcessReport rj k op detOrders causalTrad
      (rj.causalidadHipotesis.getD [])

/-- All report fields present (the narrative-optional keys are set). -/
def GerenteReport.complete (r : GerenteReport) : Prop :=
  r.resumenEjecutivo.isSome ∧ r.hallazgos.isSome ∧ r.riesgos.isSome ∧
  r.recomendaciones.isSome ∧ r.bscFinanzas.isSome ∧ r.bscClientes.isSome ∧
  r.bscProcesos.isSome ∧ r.bscAprendizaje.isSome ∧
  r.causalidadHipotesis.isSome ∧ r.ordenesPrioritarias.isSome

/-! ## Executive-summary consistency guard (C7):
`generate_executive_summary` (app/utils/executive_summary.py).

The narrative backend is the `llm` parameter (its stripped text, `none`
on exception/empty); the deterministic branches return before it is
consulted.  The `focus` instructions only shape the prompt, never the
returned value, so they are not modelled. -/

/-- Python `a or b or ""` over optional strings: first truthy value. -/
def pickStr : List (Option String) → String
  | [] => ""
  | a :: rest =>
    match a with
    | some s => if s ≠ "" then s else pickStr rest
    | none => pickStr rest

/-- `_date10`. -/
def date10 (s : String) : String :=
  let t := s.trim
  if t ≠ "" then t.take 10 else ""

/-- `cxc_saldo_cliente` / `cxc_customer_open_balance_on` context dict;
a `none` field is an absent key. -/
structure CustLookup where
  asOf : Option String
  customer : Option String
  saldo : Option ℚ
  countFacturas : Option Int
deriving Repr, DecidableEq

structure SupplierLookup where
  asOf : Option String
  supplier : Option String
  proveedor : Option String
  saldo : Option ℚ
  countFacturas : Option Int
deriving Repr, DecidableEq

structure CxpOpenSummaryCtx where
  asOf : Option String
  abiertas : Option Int
  saldo : Option ℚ
deriving Repr, DecidableEq

structure CxpAgingCtx where
  asOf : Option String
  buckets : Option (List (String × ℚ))
  totalOpen : Option ℚ
  totalOverdue : Option ℚ
deriving Repr, DecidableEq

structure SummaryIntent where
  saldoClienteCxc : Bool
  saldoProveedorCxp : Bool
  cxpAbiertasResumen : Bool
  agingCxp : Bool
deriving Repr, DecidableEq

structure SummaryCtx where
  saldoCliente : Option CustLookup
  saldoProveedor : Option SupplierLookup
  openSummaryCxp : Option CxpOpenSummaryCtx
  cxpAging : Option CxpAgingCtx
deriving Repr, DecidableEq

def emptyCustLookup : CustLookup := ⟨none, none, none, none⟩

/-- The CXC-08 template sentence. -/
def cxc08Summary (asOf customer : String) (saldo : ℚ) (cnt : Int) :
    String :=
  let head := "Al " ++ (if asOf ≠ "" then asOf else "corte consultado") ++
    ", " ++ customer
  if cnt > 0 then
    head ++ " tiene un saldo abierto por cobrar de " ++
      ("₡" ++ formatFixed saldo 2 true) ++
      (", distribuido en " ++ toString cnt ++ " factura(s) pendiente(s).")
  else head ++ " no presenta saldo abierto por cobrar."

/-- The CXP-05 template sentence. -/
def cxp05Summary (asOf supplier : String) (saldo : ℚ) (cnt : Option Int) :
    String :=
  let head := "Al " ++ (if asOf ≠ "" then asOf else "corte consultado")
  if saldo > 0 then
    if (match cnt with | none => true | some c => c ≤ 0) then
      head ++ ", el saldo abierto por pagar con " ++ supplier ++
        " es de ₡" ++ formatFixed saldo 2 true ++ "."
    else
      head ++ ", el saldo abierto por pagar con " ++ supplier ++
        " es de ₡" ++ formatFixed saldo 2 true ++ ", distribuido en " ++
        toString (cnt.getD 0) ++ " documento(s) pendiente(s)."
  else head ++ ", no hay saldo abierto por pagar con " ++ supplier ++ "."

/-- The CXP-01 template sentence. -/
def cxp01Summary (asOf : String) (abiertas : Int) (saldo : ℚ) : String :=
  let head := "Al " ++ (if asOf ≠ "" then asOf else "corte consultado")
  if abiertas ≤ 0 ∨ saldo ≤ 0 then
    head ++ ", no hay facturas CxP abiertas ni saldo pendiente por pagar."
  else
    head ++ ", hay " ++ toString abiertas ++
      " factura(s) CxP abierta(s) con un saldo total pendiente por pagar" ++
      " de ₡" ++ formatFixed saldo 2 true ++ "."

/-- Dominant bucket scan of the CXP-02 branch: strictly larger amounts
win, first occurrence kept. -/
def dominantBucket (buckets : List (String × ℚ)) : String × ℚ :=
  buckets.foldl (fun acc b => if b.2 > acc.2 then (b.1, b.2) else acc)
    ("", 0)

/-- The CXP-02 template sentence. -/
def cxp02Summary (asOf : String) (totalOpen totalOverdue : ℚ)
    (dominantLabel : String) : String :=
  let head := "Al " ++ (if asOf ≠ "" then asOf else "corte consultado")
  if totalOpen ≤ 0 then
    head ++ ", no hay saldo abierto por pagar (CxP)."
  else if dominantLabel ≠ "" then
    head ++ ", el saldo abierto por pagar (CxP) es ₡" ++
      formatFixed totalOpen 2 true ++ "; de ese total, ₡" ++
      formatFixed totalOverdue 2 true ++
      " está vencido. El bucket dominante es '" ++ dominantLabel ++ "'."
  else
    head ++ ", el saldo abierto por pagar (CxP) es ₡" ++
      formatFixed totalOpen 2 true ++ "; ₡" ++
      formatFixed totalOverdue 2 true ++ " está vencido."

/-- `generate_executive_summary`, deterministic branches in source
order, then the narrative call. -/
def generateExecutiveSummary (intent : SummaryIntent) (ctx : SummaryCtx)
    (periodText : Option String) (llm : Option String) : Option String :=
  let saldoCliente := ctx.saldoCliente.getD emptyCustLookup
  if intent.saldoClienteCxc ∧
      (saldoCliente.saldo.isSome ∨ saldoCliente.countFacturas.isSome) then
    let asOf := date10 (pickStr [saldoCliente.asOf, periodText])
    let customer :=
      let c0 := (saldoCliente.customer.getD "").trim
      if c0 ≠ "" then c0 else "el cliente consultado"
    some (cxc08Summary asOf customer (saldoCliente.saldo.getD 0)
      (saldoCliente.countFacturas.getD 0))
  else
    let p := ctx.saldoProveedor.getD ⟨none, none, none, none, none⟩
    if intent.saldoProveedorCxp ∧
        (p.saldo.isSome ∨ p.countFacturas.isSome) then
      let asOf := date10 (pickStr [p.asOf, periodText])
      let supplier :=
        let s0 := (pickStr [p.supplier, p.proveedor]).trim
        if s0 ≠ "" then s0 else "el proveedor consultado"
      some (cxp05Summary asOf supplier (p.saldo.getD 0) p.countFacturas)
    else
      let s := ctx.openSummaryCxp.getD ⟨none, none, none⟩
      if intent.cxpAbiertasResumen ∧
          (s.abiertas.isSome ∨ s.saldo.isSome) then
        let asOf := date10 (pickStr [s.asOf, periodText])
        some (cxp01Summary asOf (s.abiertas.getD 0) (s.saldo.getD 0))
      else
        let a := ctx.cxpAging.getD ⟨none, none, none, none⟩
        if intent.agingCxp ∧ (a.buckets.isSome ∨ a.totalOpen.isSome ∨
            a.totalOverdue.isSome) then
          let asOf := date10 (pickStr [a.asOf, periodText])
          let dom := dominantBucket (a.buckets.getD [])
          some (cxp02Summary asOf (a.totalOpen.getD 0)
            (a.totalOverdue.getD 0) dom.1)
        else
          match llm with
          | none => none
          | some t => if t.trim ≠ "" then some t.trim else none

/-- Substring containment on strings (via character lists). -/
def charsContain (hay needle : List Char) : Bool :=
  match hay with
  | [] => needle.isEmpty
  | _ :: rest => needle.isPrefixOf hay || charsContain rest needle

def strContains (hay needle : String) : Bool :=
  charsContain hay.toList needle.toList

/-- Scenario E witness: customer "ACME", saldo 1500.5, 2 invoices. -/
def custLookupAcme : CustLookup :=
  { asOf := some "2025-09-30T00:00:00", customer := some "ACME",
    saldo := some (3001/2), countFacturas := some 2 }

/-! ## Intent classifier (C8): `route_intent` (app/agents/intent.py)

Text is processed as character lists.  `lower()` is modelled
ASCII-only (accented keywords are matched as written); word characters
include the Spanish accented letters, matching Python's Unicode `\w`
for the inputs at hand. -/

def nbspChar : Char := Char.ofNat 160

def isSpaceCh (c : Char) : Bool :=
  c = ' ' || c = '\t' || c = '\n' || c = '\r' ||
  c = Char.ofNat 11 || c = Char.ofNat 12

def lowerChars (l : List Char) : List Char := l.map Char.toLower

def stripChars (l : List Char) : List Char :=
  ((l.dropWhile isSpaceCh).reverse.dropWhile isSpaceCh).reverse

/-- `str.split()`: split on whitespace runs. -/
def splitWs : List Char → List (List Char)
  | [] => [[]]
  | c :: rest =>
    match splitWs rest with
    | [] => if isSpaceCh c then [[]] else [[c]]
    | w :: ws =>
      if isSpaceCh c then [] :: w :: ws else (c :: w) :: ws

/-- `_norm_text`: NBSP → space, strip, lower, collapse whitespace. -/
def normText (l : List Char) : List Char :=
  let replaced := l.map (fun c => if c = nbspChar then ' ' else c)
  let words := (splitWs (lowerChars (stripChars replaced))).filter
    (fun w => !w.isEmpty)
  List.intercalate [' '] words

/-- Python's `in` on strings. -/
def sub (hay : List Char) (needle : String) : Bool :=
  charsContain hay needle.toList

def anyKw (hay : List Char) (kws : List String) : Bool :=
  kws.any (fun k => sub hay k)

/-- Word character for the regex `\b` boundaries (ASCII word characters
plus the Spanish letters appearing in the keywords). -/
def isWordCh (c : Char) : Bool :=
  c.isAlphanum || c = '_' ||
  c = 'á' || c = 'é' || c = 'í' || c = 'ó' || c = 'ú' || c = 'ü' || c = 'ñ'

def boundaryBefore : Option Char → Bool
  | none => true
  | some c => !isWordCh c

def boundaryAfter : List Char → Bool
  | [] => true
  | c :: _ => !isWordCh c

/-- Whole-word occurrence of `w` in the text (both `\b` boundaries),
scanning left to right. -/
def hasWordCore (w : List Char) : Option Char → List Char → Bool
  | prev, hay =>
    let here := boundaryBefore prev && w.isPrefixOf hay &&
      boundaryAfter (hay.drop w.length)
    match hay with
    | [] => here
    | c :: rest => here || hasWordCore w (some c) rest

def hasWord (hay : List Char) (w : String) : Bool :=
  hasWordCore w.toList none hay

/-- `\bvenc(?:e|en)\b`. -/
def rxVence (hay : List Char) : Bool :=
  hasWord hay "vence" || hasWord hay "vencen"

/-- `\bvenc(?:e|en)\b.*\b(hoy|el|en)\b` (`_RX_DUE_ON`): a bounded
vence/vencen followed anywhere later by a bounded hoy/el/en. -/
def rxDueOnCore : Option Char → List Char → Bool
  | prev, hay =>
    let tryW := fun (w : List Char) (lastC : Char) =>
      boundaryBefore prev && w.isPrefixOf hay &&
      boundaryAfter (hay.drop w.length) &&
      (hasWordCore "hoy".toList (some lastC) (hay.drop w.length) ||
       hasWordCore "el".toList (some lastC) (hay.drop w.length) ||
       hasWordCore "en".toList (some lastC) (hay.drop w.length))
    let here := tryW "vence".toList 'e' || tryW "vencen".toList 'n'
    match hay with
    | [] => here
    | c :: rest => here || rxDueOnCore (some c) rest

def rxDueOn (hay : List Char) : Bool := rxDueOnCore none hay

def isDigitCh (c : Char) : Bool := '0' ≤ c ∧ c ≤ '9'

def digitsPrefix (l : List Char) (n : Nat) : Bool :=
  (l.take n).length = n && (l.take n).all isDigitCh

/-- Try `\d{n1}/\d{n2}/\d{n3}` at the head, with a `\b` after. -/
def tryDMYAt (l : List Char) (n1 n2 n3 : Nat) : Bool :=
  digitsPrefix l n1 &&
  (match l.drop n1 with
   | '/' :: r2 =>
     digitsPrefix r2 n2 &&
     (match r2.drop n2 with
      | '/' :: r3 => digitsPrefix r3 n3 && boundaryAfter (r3.drop n3)
      | _ => false)
   | _ => false)

/-- `_RX_DATE_DMY` match at the head (greedy backtracking order),
returning the match length. -/
def matchDMY (prev : Option Char) (l : List Char) : Option Nat :=
  if !boundaryBefore prev then none
  else
    (([2, 1].flatMap fun n1 => [2, 1].flatMap fun n2 =>
      [4, 3, 2].map fun n3 => (n1, n2, n3))).findSome?
      (fun t => if tryDMYAt l t.1 t.2.1 t.2.2 then
        some (t.1 + 1 + t.2.1 + 1 + t.2.2) else none)

/-- Try `\d{4}-\d{n2}-\d{n3}` at the head, with a `\b` after. -/
def tryISOAt (l : List Char) (n2 n3 : Nat) : Bool :=
  digitsPrefix l 4 &&
  (match l.drop 4 with
   | '-' :: r2 =>
     digitsPrefix r2 n2 &&
     (match r2.drop n2 with
      | '-' :: r3 => digitsPrefix r3 n3 && boundaryAfter (r3.drop n3)
      | _ => false)
   | _ => false)

/-- `_RX_DATE_ISO` match at the head, returning the match length. -/
def matchISO (prev : Option Char) (l : List Char) : Option Nat :=
  if !boundaryBefore prev then none
  else
    (([2, 1].flatMap fun n2 => [2, 1].map fun n3 => (n2, n3))).findSome?
      (fun t => if tryISOAt l t.1 t.2 then some (4 + 1 + t.1 + 1 + t.2)
        else none)

/-- `re.findall` counting: leftmost matches, continue past each match. -/
def countMatchesAux (matchAt : Option Char → List Char → Option Nat) :
    Nat → Option Char → List Char → Nat
  | 0, _, _ => 0
  | _ + 1, _, [] => 0
  | fuel + 1, prev, c :: rest =>
    match matchAt prev (c :: rest) with
    | some len =>
      if len = 0 then countMatchesAux matchAt fuel (some c) rest
      else
        1 + countMatchesAux matchAt fuel
          (some (((c :: rest).take len).getLastD c))
          ((c :: rest).drop len)
    | none => countMatchesAux matchAt fuel (some c) rest

def countDates (l : List Char) : Nat :=
  countMatchesAux matchDMY l.length none l +
    countMatchesAux matchISO l.length none l

/-- `_has_two_dates`. -/
def hasTwoDates (l : List Char) : Bool := 2 ≤ countDates l

/-- `_has_any_date`. -/
def hasAnyDate (l : List Char) : Bool := 1 ≤ countDates l

/-! ### The Intent model and `route_intent` -/

structure Intent where
  cxc : Bool
  cxp : Bool
  informe : Bool
  aging : Bool
  vencimientosRango : Bool
  topClientesCxc : Bool
  vencenHoyCxc : Bool
  cxcPagoParcial : Bool
  saldoClienteCxc : Bool
  cxpAbiertasResumen : Bool
  agingCxp : Bool
  topProveedoresCxp : Bool
  saldoProveedorCxp : Bool
  reason : String
deriving Repr, DecidableEq

def Intent.cxcSpecificB (i : Intent) : Bool :=
  i.vencimientosRango || i.topClientesCxc || i.vencenHoyCxc ||
  i.cxcPagoParcial || i.saldoClienteCxc

def Intent.cxpSpecificB (i : Intent) : Bool :=
  i.cxpAbiertasResumen || i.agingCxp || i.topProveedoresCxp ||
  i.saldoProveedorCxp

/-- The anti-cross-direction firewall, inlined twice in `route_intent`
(after the heuristic stage and after the LLM stage): both `if`s test the
specific-flag groups computed before either runs. -/
def applyDirectionGuard (i : Intent) : Intent :=
  let cxcSpec := i.cxcSpecificB
  let cxpSpec := i.cxpSpecificB
  let i1 :=
    if cxpSpec && !cxcSpec then
      { i with cxc := false, vencimientosRango := false,
               topClientesCxc := false, vencenHoyCxc := false,
               cxcPagoParcial := false, saldoClienteCxc := false }
    else i
  if cxcSpec && !cxpSpec then
    { i1 with cxp := false, cxpAbiertasResumen := false,
              agingCxp := false, topProveedoresCxp := false,
              saldoProveedorCxp := false }
  else i1

/-- Parsed flags of the LLM fallback (`_coerce_bool` applied to the
extracted JSON object), or a raised exception. -/
inductive LlmOutcome where
  | failed
  | parsed (cxc cxp informe aging vencimientosRango topClientesCxc
      vencenHoyCxc cxcPagoParcial saldoClienteCxc cxpAbiertasResumen
      agingCxp topProveedoresCxp saldoProveedorCxp : Bool) (reason : String)
deriving Repr, DecidableEq

def Intent.anyFlag (i : Intent) : Bool :=
  i.cxc || i.cxp || i.informe || i.aging || i.vencimientosRango ||
  i.topClientesCxc || i.vencenHoyCxc || i.cxcPagoParcial ||
  i.saldoClienteCxc || i.cxpAbiertasResumen || i.agingCxp ||
  i.topProveedoresCxp || i.saldoProveedorCxp

/-- Heuristic stage of `route_intent` (lines 114-312), before the
direction guard. -/
def routeIntentHeuristicPre (question : List Char) : Intent :=
  let qLow := stripChars (lowerChars question)
  let qNorm := normText question
  let cxc := anyKw qLow ["cxc", "cobrar", "cliente", "clientes",
    "factura", "facturas", "dso", "por cobrar", "cuentas por cobrar"]
  let cxp := anyKw qLow ["cxp", "proveedor", "proveedores", "pago",
    "pagos", "dpo", "por pagar", "cuentas por pagar"]
  let informe := anyKw qLow ["informe ejecutivo", "bsc",
    "balanced scorecard", "resumen gerencial", "informe"]
  let vencenHoy0 := sub qNorm "hoy" && rxVence qNorm
  let vencenHoy1 := vencenHoy0 ||
    (rxVence qNorm && hasAnyDate qNorm && !hasTwoDates qNorm)
  let vencenHoyCxc := vencenHoy1 ||
    (rxDueOn qNorm && hasAnyDate qNorm && !hasTwoDates qNorm)
  let aging := anyKw qLow ["aging", "buckets", "antiguedad",
    "antigüedad", "no vencido", "1-30", "31-60", "61-90", "90+",
    "vencido", "vencidas", "por vencer"]
  let vencimientosKw := anyKw qLow ["vence", "vencen", "vencida",
    "vencidas", "vencimiento", "vencimientos", "fecha limite",
    "fecha límite", "entre", "desde", "hasta", "del", "al"]
  let vencimientosRango := vencimientosKw && hasTwoDates qLow
  let topKw := anyKw qLow ["top", "ranking", "mayores", "mayor",
    "principales"]
  let saldoKw := anyKw qLow ["saldo", "saldos", "monto", "montos"]
  let abiertoKw := anyKw qLow ["abierto", "abierta", "pendiente",
    "pendientes", "por cobrar", "por pagar"]
  let clientesKw := sub qLow "cliente" || sub qLow "clientes"
  let topClientesCxc := topKw && clientesKw && saldoKw &&
    (abiertoKw || sub qLow "cxc" || sub qLow "cuentas por cobrar") &&
    !(sub qLow "cxp" || sub qLow "proveedor" || sub qLow "proveedores") &&
    hasAnyDate qLow && !hasTwoDates qLow
  let pagoParcialKw := anyKw qNorm ["pago parcial", "pagos parciales",
    "abono", "abonos", "parcialmente pagada", "parcialmente pagadas",
    "pagada parcialmente", "pagadas parcialmente", "pago incompleto",
    "pagos incompletos", "saldo pendiente con abono", "abonada",
    "abonadas"]
  let facturasCxcKw := anyKw qNorm ["factura", "facturas", "cxc",
    "cuentas por cobrar", "por cobrar"]
  let cxcPagoParcial := pagoParcialKw && facturasCxcKw
  let vencimientosRango := if cxcPagoParcial then false
    else vencimientosRango
  let aging := if cxcPagoParcial then false else aging
  let saldoClienteCxc := saldoKw && hasAnyDate qLow &&
    !hasTwoDates qLow && !topClientesCxc &&
    (sub qLow "cliente" || sub qLow "clientes" || sub qLow "cxc" ||
      sub qLow "cuentas por cobrar" || sub qLow "por cobrar") &&
    !(sub qLow "proveedor" || sub qLow "proveedores" || sub qLow "cxp" ||
      sub qLow "cuentas por pagar" || sub qLow "por pagar")
  let abiertasKw := anyKw qLow ["abiertas", "abiertos", "pendientes",
    "sin pagar", "no pagadas"]
  let conteoKw := anyKw qLow ["cuántas", "cuantas", "cantidad",
    "numero", "número", "count", "total"]
  let facturasKw := sub qLow "factura" || sub qLow "facturas"
  let resumenKw := anyKw qLow ["saldo total", "total", "monto total",
    "resumen"]
  let cxpAbiertasResumen :=
    (cxp || sub qLow "cuentas por pagar" || sub qLow "por pagar" ||
      sub qLow "cxp") &&
    (facturasKw || sub qLow "cuentas por pagar" || sub qLow "cxp") &&
    (abiertasKw || abiertoKw || conteoKw) &&
    (conteoKw || sub qLow "cuántas facturas" ||
      sub qLow "cuantas facturas") &&
    (resumenKw || saldoKw) && hasAnyDate qLow && !hasTwoDates qLow &&
    !(sub qLow "cliente" || sub qLow "clientes" || sub qLow "cxc") &&
    !topKw
  let agingCxp := cxp && aging && hasAnyDate qLow && !hasTwoDates qLow
  let proveedoresKw := sub qLow "proveedor" || sub qLow "proveedores"
  let topProveedoresCxp := topKw && proveedoresKw && saldoKw &&
    (abiertoKw || sub qLow "cxp" || sub qLow "cuentas por pagar" ||
      sub qLow "por pagar") &&
    hasAnyDate qLow && !hasTwoDates qLow &&
    !(sub qLow "cliente" || sub qLow "clientes" || sub qLow "cxc")
  let saldoClienteCxc := if topProveedoresCxp then false
    else saldoClienteCxc
  let cxpAbiertasResumen := if topProveedoresCxp then false
    else cxpAbiertasResumen
  let conKw := sub qLow " con "
  let saldoProveedorCxp := cxp && saldoKw &&
    (abiertoKw || sub qLow "cxp" || sub qLow "cuentas por pagar" ||
      sub qLow "por pagar") &&
    hasAnyDate qLow && !hasTwoDates qLow && conKw &&
    !topProveedoresCxp && !cxpAbiertasResumen
  let cxc := if vencenHoyCxc && !cxc && !cxp then true else cxc
  let cxc := if vencimientosRango && !(cxc || cxp) then true else cxc
  let cxc := if topClientesCxc || vencenHoyCxc || cxcPagoParcial ||
    saldoClienteCxc then true else cxc
  let cxp := if cxpAbiertasResumen || agingCxp || topProveedoresCxp ||
    saldoProveedorCxp then true else cxp
  { cxc := cxc, cxp := cxp, informe := informe, aging := aging,
    vencimientosRango := vencimientosRango,
    topClientesCxc := topClientesCxc, vencenHoyCxc := vencenHoyCxc,
    cxcPagoParcial := cxcPagoParcial,
    saldoClienteCxc := saldoClienteCxc,
    cxpAbiertasResumen := cxpAbiertasResumen, agingCxp := agingCxp,
    topProveedoresCxp := topProveedoresCxp,
    saldoProveedorCxp := saldoProveedorCxp,
    reason := "Heurística por palabras clave" }

/-- Heuristic stage of `route_intent`, guarded (lines 314-359 end with
the anti-cross firewall before returning). -/
def routeIntentHeuristic (question : List Char) : Intent :=
  applyDirectionGuard (routeIntentHeuristicPre question)

/-- LLM stage of `route_intent` (lines 402-496): the ambiguous-both
fallback, the module forces, the guard; an exception yields the
both-directions Intent. -/
def routeIntentLlm (llm : LlmOutcome) : Intent :=
  match llm with
  | .failed =>
    { cxc := true, cxp := true, informe := false, aging := false,
      vencimientosRango := false, topClientesCxc := false,
      vencenHoyCxc := false, cxcPagoParcial := false,
      saldoClienteCxc := false, cxpAbiertasResumen := false,
      agingCxp := false, topProveedoresCxp := false,
      saldoProveedorCxp := false, reason := "Fallback por error LLM" }
  | .parsed cxc cxp informe aging vr tc vh pp sc ar ac tp sp reason =>
    let allEmpty := !(cxc || cxp || informe || aging || vr || tc || vh ||
      pp || sc || ar || ac || tp || sp)
    let cxc := if allEmpty then true else cxc
    let cxp := if allEmpty then true else cxp
    let reason := if allEmpty then "Fallback ambiguo: ambos" else reason
    let cxc := if tc || vh || pp || sc then true else cxc
    let cxp := if ar || ac || tp || sp then true else cxp
    applyDirectionGuard
      { cxc := cxc, cxp := cxp, informe := informe, aging := aging,
        vencimientosRango := vr, topClientesCxc := tc,
        vencenHoyCxc := vh, cxcPagoParcial := pp, saldoClienteCxc := sc,
        cxpAbiertasResumen := ar, agingCxp := ac,
        topProveedoresCxp := tp, saldoProveedorCxp := sp,
        reason := reason }

/-- `route_intent(question)`: heuristic stage first; the LLM stage only
when the guarded heuristic Intent has no flag at all. -/
def routeIntent (question : List Char) (llm : LlmOutcome) : Intent :=
  let hi := routeIntentHeuristic question
  if hi.anyFlag then hi else routeIntentLlm llm

/-! ## Period resolver (C9): `resolve_period`
(app/dates/period_resolver.py)

Boundaries are modelled as integer seconds from midnight of 0001-01-01
in the resolver's fixed timezone; `datetime(...)` construction is
`Option`-valued (`none` = `ValueError`).  The regex cascade is
abstracted into `NLShape`, the first extraction branch that fires on
the text (each branch's window arithmetic is translated from the
source; the matched-text labels of `m.group(0)` are kept as
descriptive constants). -/

/-- Seconds since midnight of 0001-01-01 (proleptic Gregorian). -/
def secsOfDate (y m d hh mi ss : Nat) : Int :=
  (dateOrdinal y m d - 1) * 86400 + hh * 3600 + mi * 60 + ss

/-- `datetime(y, m, d, hh, mi, ss)`: `none` on an invalid date. -/
def mkDT (y m d hh mi ss : Nat) : Option Int :=
  if 1 ≤ m ∧ m ≤ 12 ∧ 1 ≤ d ∧ d ≤ daysInMonth y m then
    some (secsOfDate y m d hh mi ss)
  else none

/-- `_start_of_month`. -/
def startOfMonthDT (y m : Nat) : Option Int := mkDT y m 1 0 0 0

/-- `_end_of_month` (`monthrange` raises on an invalid month). -/
def endOfMonthDT (y m : Nat) : Option Int :=
  mkDT y m (daysInMonth y m) 23 59 59

def monthWindowDT (y m : Nat) : Option (Int × Int) := do
  let s ← startOfMonthDT y m
  let e ← endOfMonthDT y m
  pure (s, e)

/-- Midnight of the day containing `s` (`replace(hour=0, ...)`). -/
def floorDay (s : Int) : Int := (s / 86400) * 86400

/-- Wall clock passed to the resolver (`datetime.now(TZ)`). -/
structure NowInfo where
  y : Nat
  m : Nat
  d : Nat
  hh : Nat
  mi : Nat
  ss : Nat
deriving Repr, DecidableEq

def NowInfo.secs (n : NowInfo) : Int :=
  secsOfDate n.y n.m n.d n.hh n.mi n.ss

/-- First extraction branch firing on the free text. -/
inductive NLShape where
  | dayRange (d1 d2 month : Nat) (year : Option Nat)
  | isoDate (y mo d : Nat)
  | yearMonth (y mo : Nat)
  | latamDate (d mo y : Nat)
  | spanishDate (d month : Nat) (year : Option Nat)
  | quarter (q y : Nat)
  | monthYear (month y : Nat)
  | bareMonth (month : Nat)
  | estaSemana
  | esteMes
  | mesPasado
  | hoy
  | ultimos30
  | nothing
deriving Repr, DecidableEq

structure ResolvedPeriod where
  text : String
  start : Int
  stop : Int
  granularity : String
  source : String
deriving Repr, DecidableEq

/-- Verbatim override dict (`start`/`end` both present). -/
structure OverrideDict where
  start : Int
  stop : Int
  text : Option String
  granularity : Option String
deriving Repr, DecidableEq

def fechaText (y mo d : Nat) : String :=
  "fecha:" ++ padZeros (toString y) 4 ++ "-" ++
    padZeros (toString mo) 2 ++ "-" ++ padZeros (toString d) 2

/-- `resolve_period(nl, override)`: override verbatim, else the regex
cascade, else the current-month default. -/
def resolvePeriodRouter (override : Option OverrideDict)
    (shape : NLShape) (now : NowInfo) : Option ResolvedPeriod :=
  match override with
  | some o =>
    some { text := o.text.getD "param", start := o.start, stop := o.stop,
           granularity := o.granularity.getD "custom", source := "param" }
  | none =>
    match shape with
    | .dayRange d1 d2 month year =>
      let y := year.getD now.y
      match mkDT y month d1 0 0 0, mkDT y month d2 23 59 59 with
      | some s, some e =>
        some { text := "del d1 al d2 de mes", start := s, stop := e,
               granularity := "range", source := "nlp" }
      | _, _ => none
    | .isoDate y mo d =>
      (monthWindowDT y mo).map fun w =>
        { text := fechaText y mo d, start := w.1, stop := w.2,
          granularity := "month", source := "nlp" }
    | .yearMonth y mo =>
      if 1 ≤ mo ∧ mo ≤ 12 then
        (monthWindowDT y mo).map fun w =>
          { text := padZeros (toString y) 4 ++ "-" ++
              padZeros (toString mo) 2,
            start := w.1, stop := w.2, granularity := "month",
            source := "nlp" }
      else
        (monthWindowDT now.y now.m).map fun w =>
          { text := "auto: mes actual", start := w.1, stop := w.2,
            granularity := "month", source := "default" }
    | .latamDate d mo y =>
      let y := if y < 100 then y + 2000 else y
      (monthWindowDT y mo).map fun w =>
        { text := fechaText y mo d, start := w.1, stop := w.2,
          granularity := "month", source := "nlp" }
    | .spanishDate d month year =>
      let y := year.getD now.y
      (monthWindowDT y month).map fun w =>
        { text := fechaText y month d, start := w.1, stop := w.2,
          granularity := "month", source := "nlp" }
    | .quarter q y => do
      let s ← startOfMonthDT y (3 * q - 2)
      let e ← endOfMonthDT y (3 * q)
      pure { text := "qN YYYY", start := s, stop := e,
             granularity := "quarter", source := "nlp" }
    | .monthYear month y =>
      (monthWindowDT y month).map fun w =>
        { text := "mes YYYY", start := w.1, stop := w.2,
          granularity := "month", source := "nlp" }
    | .bareMonth month =>
      let y := if month > now.m + 1 then now.y - 1 else now.y
      (monthWindowDT y month).map fun w =>
        { text := "mes", start := w.1, stop := w.2,
          granularity := "month", source := "nlp" }
    | .estaSemana =>
      let weekday := ((dateOrdinal now.y now.m now.d - 1) % 7 + 6) % 7
      let start := floorDay (now.secs - weekday * 86400)
      some { text := "esta semana", start := start,
             stop := start + 6 * 86400 + 86399, granularity := "week",
             source := "nlp" }
    | .esteMes =>
      (monthWindowDT now.y now.m).map fun w =>
        { text := "este mes", start := w.1, stop := w.2,
          granularity := "month", source := "nlp" }
    | .mesPasado =>
      let p := if now.m = 1 then (now.y - 1, 12) else (now.y, now.m - 1)
      (monthWindowDT p.1 p.2).map fun w =>
        { text := "mes pasado", start := w.1, stop := w.2,
          granularity := "month", source := "nlp" }
    | .hoy =>
      some { text := "hoy", start := floorDay now.secs,
             stop := floorDay now.secs + 86399, granularity := "day",
             source := "nlp" }
    | .ultimos30 =>
      some { text := "últimos 30 días",
             start := floorDay (now.secs - 29 * 86400),
             stop := floorDay now.secs + 86399,
             granularity := "rolling_30d", source := "nlp" }
    | .nothing =>
      (monthWindowDT now.y now.m).map fun w =>
        { text := "auto: mes actual", start := w.1, stop := w.2,
          granularity := "month", source := "default" }

def nowOct2025 : NowInfo := ⟨2025, 10, 15, 12, 30, 0⟩

/-- The window the resolver produces for "del 5 al 20 de octubre de 2025". -/
def witnessResolved : ResolvedPeriod :=
  { text := "del d1 al d2 de mes", start := secsOfDate 2025 10 5 0 0 0,
    stop := secsOfDate 2025 10 20 23 59 59, granularity := "range",
    source := "nlp" }

/-! ## Lemmas and claim theorems -/

lemma agingStepCxc_balanced (refDate : Int) (acc : AgingSnapshot)
    (f : FacturaCXC) (h : acc.balanced) :
    (agingStepCxc refDate acc f).balanced := by
  unfold AgingSnapshot.balanced AgingSnapshot.overdueSum
    AgingSnapshot.currentSum at h ⊢
  unfold agingStepCxc
  rcases f.fechaLimite with _ | due <;>
    simp only [] <;> split_ifs <;> simp_all <;> ring_nf <;> linarith

lemma agingStepCxp_balanced (refDate : Int) (acc : AgingSnapshot)
    (f : FacturaCXP) (h : acc.balanced) :
    (agingStepCxp refDate acc f).balanced := by
  unfold AgingSnapshot.balanced AgingSnapshot.overdueSum
    AgingSnapshot.currentSum at h ⊢
  unfold agingStepCxp
  rcases f.fechaLimite with _ | due <;>
    simp only [] <;> split_ifs <;> simp_all <;> ring_nf <;> linarith

lemma foldl_agingStepCxc_balanced (refDate : Int) (db : List FacturaCXC) :
    ∀ acc : AgingSnapshot, acc.balanced →
      (db.foldl (agingStepCxc refDate) acc).balanced := by
  induction db with
  | nil => intro acc h; simpa using h
  | cons f rest ih =>
      intro acc h
      simpa using ih _ (agingStepCxc_balanced refDate acc f h)

lemma foldl_agingStepCxp_balanced (refDate : Int) (db : List FacturaCXP) :
    ∀ acc : AgingSnapshot, acc.balanced →
      (db.foldl (agingStepCxp refDate) acc).balanced := by
  induction db with
  | nil => intro acc h; simpa using h
  | cons f rest ih =>
      intro acc h
      simpa using ih _ (agingStepCxp_balanced refDate acc f h)

lemma agingSnapshot_init_balanced : AgingSnapshot.init.balanced := by
  unfold AgingSnapshot.balanced AgingSnapshot.overdueSum
    AgingSnapshot.currentSum AgingSnapshot.init
  norm_num

/-- Processing an open record with a due date adds its balance to exactly
the bucket `recordBucket refDate due` and leaves the other seven buckets
unchanged. -/
lemma agingStepCxc_bucket (refDate : Int) (acc : AgingSnapshot)
    (f : FacturaCXC) (due : Int) (hopen : 0 < saldoCxc f)
    (hdue : f.fechaLimite = some due) (b : Bucket) :
    (agingStepCxc refDate acc f).bucket b =
      acc.bucket b +
        (if b = recordBucket refDate due then saldoCxc f else 0) := by
  unfold agingStepCxc recordBucket
  rw [hdue]
  have hnot : ¬ saldoCxc f ≤ 0 := not_le.2 hopen
  simp only [hnot, if_false]
  split_ifs <;> cases b <;>
    simp_all [AgingSnapshot.bucket]

lemma agingStepCxp_bucket (refDate : Int) (acc : AgingSnapshot)
    (f : FacturaCXP) (due : Int) (hopen : 0 < saldoCxp f)
    (hdue : f.fechaLimite = some due) (b : Bucket) :
    (agingStepCxp refDate acc f).bucket b =
      acc.bucket b +
        (if b = recordBucket refDate due then saldoCxp f else 0) := by
  unfold agingStepCxp recordBucket
  rw [hdue]
  have hnot : ¬ saldoCxp f ≤ 0 := not_le.2 hopen
  simp only [hnot, if_false]
  split_ifs <;> cases b <;>
    simp_all [AgingSnapshot.bucket]

/-- The bucket chosen for a record is on the overdue side exactly when the
reference date is strictly past the due date. -/
lemma recordBucket_side (refDate due : Int) :
    (recordBucket refDate due).isOverdueSide = true ↔ refDate > due := by
  unfold recordBucket
  by_cases h : refDate > due
  · simp only [h, if_true]
    split_ifs <;> simp [Bucket.isOverdueSide, h]
  · simp only [h, if_false]
    split_ifs <;> simp [Bucket.isOverdueSide, h]

/-- C1: in the two-sided aging snapshots of `build_aging_cxc_db` and
`build_aging_cxp_db`, every open record (balance > 0) with a due date is
accumulated into exactly one bucket — an overdue bucket exactly when the
reference date is past the due date, a current bucket otherwise — and the
sum of all overdue buckets plus the sum of all current buckets plus the
no-due-date total equals the outstanding total, for every ledger state
and reference date. -/
theorem aging_snapshot_partition (dbc : List FacturaCXC)
    (dbp : List FacturaCXP) (refDate : Int) :
    ((buildAgingCxcDb refDate dbc).overdueSum +
        (buildAgingCxcDb refDate dbc).currentSum +
        (buildAgingCxcDb refDate dbc).sinFechaLimite =
      (buildAgingCxcDb refDate dbc).totalOutstanding) ∧
    (∀ f due, 0 < saldoCxc f → f.fechaLimite = some due → ∀ b,
      (buildAgingCxcDb refDate (dbc ++ [f])).bucket b =
        (buildAgingCxcDb refDate dbc).bucket b +
          (if b = recordBucket refDate due then saldoCxc f else 0)) ∧
    ((buildAgingCxpDb refDate dbp).overdueSum +
        (buildAgingCxpDb refDate dbp).currentSum +
        (buildAgingCxpDb refDate dbp).sinFechaLimite =
      (buildAgingCxpDb refDate dbp).totalOutstanding) ∧
    (∀ f due, f.pagada = false → 0 < saldoCxp f →
      f.fechaLimite = some due → ∀ b,
      (buildAgingCxpDb refDate (dbp ++ [f])).bucket b =
        (buildAgingCxpDb refDate dbp).bucket b +
          (if b = recordBucket refDate due then saldoCxp f else 0)) ∧
    (∀ r d : Int, (recordBucket r d).isOverdueSide = true ↔ r > d) := by
  refine ⟨?_, ?_, ?_, ?_, recordBucket_side⟩
  · exact foldl_agingStepCxc_balanced refDate dbc AgingSnapshot.init
      agingSnapshot_init_balanced
  · intro f due hopen hdue b
    unfold buildAgingCxcDb
    rw [List.foldl_append]
    simpa using agingStepCxc_bucket refDate _ f due hopen hdue b
  · exact foldl_agingStepCxp_balanced refDate _ AgingSnapshot.init
      agingSnapshot_init_balanced
  · intro f due hpag hopen hdue b
    unfold buildAgingCxpDb
    rw [List.filter_append]
    have hf : List.filter (fun f => decide (f.pagada = false)) [f] = [f] := by
      simp [List.filter, hpag]
    rw [hf, List.foldl_append]
    simpa using agingStepCxp_bucket refDate _ f due hopen hdue b

theorem aging_snapshot_partition_witness :
    0 < saldoCxc facturaScenarioA ∧
    (buildAgingCxcDb 100 ([] ++ [facturaScenarioA])).bucket Bucket.o1_30 =
      (buildAgingCxcDb 100 []).bucket Bucket.o1_30 +
        (if Bucket.o1_30 = recordBucket 100 90 then saldoCxc facturaScenarioA
          else 0) ∧
    (buildAgingCxpDb 100 ([] ++ [facturaScenarioP])).bucket Bucket.c16_30 =
      (buildAgingCxpDb 100 []).bucket Bucket.c16_30 +
        (if Bucket.c16_30 = recordBucket 100 120 then saldoCxp facturaScenarioP
          else 0) := by
  have hc : (0 : ℚ) < saldoCxc facturaScenarioA := by
    norm_num [saldoCxc, facturaScenarioA]
  have hp : (0 : ℚ) < saldoCxp facturaScenarioP := by
    norm_num [saldoCxp, facturaScenarioP]
  refine ⟨hc, ?_, ?_⟩
  · exact (aging_snapshot_partition [] [] 100).2.1 facturaScenarioA 90 hc rfl
      Bucket.o1_30
  · exact (aging_snapshot_partition [] [] 100).2.2.2.1 facturaScenarioP 120 rfl
      hp rfl Bucket.c16_30

/-- C3 counterexample: `cxp_open_summary_as_of` counts a record with
`paid ≥ amount` (here paid 600 on amount 500, `pagada` still false) among
the open invoices and sums its negative raw balance, so such a record
does appear in this open-summary operation. -/
theorem cxp_open_summary_counts_settled_record :
    facturaSobrepagada.monto.getD 0 ≤ facturaSobrepagada.montoPagado.getD 0 ∧
    (cxpOpenSummaryAsOf 20 [facturaSobrepagada]).abiertas = 1 ∧
    (cxpOpenSummaryAsOf 20 [facturaSobrepagada]).saldo = -100 := by
  refine ⟨by norm_num [facturaSobrepagada], ?_, ?_⟩ <;>
    norm_num [facturaSobrepagada, cxpOpenSummaryAsOf, List.filterMap_cons]

lemma listOpenRowCxc_factura (refDate : Int) (g : FacturaCXC)
    (r : OpenRowCxc) (h : listOpenRowCxc refDate g = some r) :
    r.factura = g ∧ 0 < saldoCxc g := by
  unfold listOpenRowCxc at h
  by_cases hle : saldoCxc g ≤ 0
  · simp [hle] at h
  · refine ⟨?_, not_le.1 hle⟩
    simp only [hle, if_false] at h
    rcases hfl : g.fechaLimite with _ | due <;> rw [hfl] at h
    · rw [← Option.some.inj h]
    · simp only [] at h
      split_ifs at h <;> rw [← Option.some.inj h]

/-- C3 (amended): `_saldo` clamps to `max(amount - paid, 0)`; a record
with `paid ≥ amount` never appears in the open listing `_list_open_db`
and contributes nothing to the aging snapshot (neither counted nor
summed); the exception is `cxp_open_summary_as_of`, which filters only on
the `pagada` flag and the issue date (see the counterexample). -/
theorem saldo_clamp_and_open_listing (monto pagado : Option ℚ)
    (db : List FacturaCXC) (refDate : Int) (f : FacturaCXC)
    (hsettled : f.monto.getD 0 ≤ f.montoPagado.getD 0) :
    repoSaldo monto pagado = max (monto.getD 0 - pagado.getD 0) 0 ∧
    (∀ r ∈ listOpenDb refDate db, r.factura ≠ f) ∧
    buildAgingCxcDb refDate (db ++ [f]) = buildAgingCxcDb refDate db := by
  have hsaldo : saldoCxc f ≤ 0 := by
    unfold saldoCxc; linarith
  refine ⟨?_, ?_, ?_⟩
  · unfold repoSaldo
    rcases le_or_lt (monto.getD 0 - pagado.getD 0) 0 with h | h
    · rw [if_neg (by linarith), max_eq_right h]
    · rw [if_pos h, max_eq_left h.le]
  · intro r hr hrf
    rw [listOpenDb, List.mem_mergeSort, List.mem_filterMap] at hr
    obtain ⟨g, _, hg⟩ := hr
    obtain ⟨hfac, hpos⟩ := listOpenRowCxc_factura refDate g r hg
    rw [hrf] at hfac
    exact absurd hsaldo (by rw [hfac]; exact not_le.2 hpos)
  · unfold buildAgingCxcDb
    rw [List.foldl_append]
    simp [agingStepCxc, hsaldo]

theorem saldo_clamp_and_open_listing_witness :
    (let f : FacturaCXC :=
      { monto := some 500, montoPagado := some 500, fechaEmision := some 1,
        fechaLimite := some 15, pagada := false, idEntidadCliente := 7 }
    repoSaldo (some 500) (some 500) = max ((500 : ℚ) - 500) 0 ∧
    (∀ r ∈ listOpenDb 20 [f], r.factura ≠ f) ∧
    buildAgingCxcDb 20 ([f] ++ [f]) = buildAgingCxcDb 20 [f]) := by
  exact saldo_clamp_and_open_listing (some 500) (some 500) _ 20 _ (by norm_num)

lemma requiredDenom_eq (ar minAbs minRatio : ℚ) (hratio : 0 ≤ minRatio) :
    requiredDenom ar minAbs minRatio = max minAbs (ar * minRatio) := by
  unfold requiredDenom
  rcases eq_or_lt_of_le hratio with h0 | hpos
  · simp [← h0]
  · simp only [not_lt.2 hratio, if_neg, if_false]
    by_cases har : ar = 0
    · simp [har, hpos.ne]
    · simp [har, hpos.ne.symm]

/-- C2: for every ledger state, month and thresholds (with the compat
floor `min_denominator` below the absolute threshold, as in the default
call), `dso` — and symmetrically `dpo` — returns `value = none` exactly
when both the in-month flow and the trailing-window flow are below
`required = max(minAbsDenominator, endBalance * minRelDenominator)`; a
`none` value always carries a non-null reason, and the computation is a
total function returning a result record (the `required_denom` field
reported equals that same threshold). -/
theorem credit_cycle_confidence_gate (dbC : List FacturaCXC)
    (dbP : List FacturaCXP) (year month : Nat) (windowDays : Int)
    (minDen minAbs minRatio : ℚ) (hden : minDen ≤ minAbs)
    (hratio : 0 ≤ minRatio) :
    (let mb := monthBounds year month
     let tb := windowBounds mb.2 windowDays
     let r := repoDso dbC year month windowDays minDen minAbs minRatio
     let required := max minAbs (arEnd dbC mb.2 * minRatio)
     (r.value = none ↔ (salesBetween dbC mb.1 mb.2 < required ∧
        salesBetween dbC tb.1 tb.2 < required)) ∧
     (r.value = none → r.reason ≠ none) ∧
     r.requiredDenomOut = required) ∧
    (let mb := monthBounds year month
     let tb := windowBounds mb.2 windowDays
     let r := repoDpo dbP year month windowDays minDen minAbs minRatio
     let required := max minAbs (apEnd dbP mb.2 * minRatio)
     (r.value = none ↔ (purchasesBetween dbP mb.1 mb.2 < required ∧
        purchasesBetween dbP tb.1 tb.2 < required)) ∧
     (r.value = none → r.reason ≠ none) ∧
     r.requiredDenomOut = required) := by
  constructor
  · have hreq : max (requiredDenom (arEnd dbC (monthBounds year month).2)
        minAbs minRatio) minDen
        = max minAbs (arEnd dbC (monthBounds year month).2 * minRatio) := by
      rw [requiredDenom_eq _ _ _ hratio]
      exact max_eq_left (hden.trans (le_max_left _ _))
    unfold repoDso
    dsimp only
    simp only [hreq]
    split_ifs with h1 h2
    · exact ⟨⟨fun hx => by simp at hx, fun hx => absurd h1 (not_le.2 hx.1)⟩,
        by simp, rfl⟩
    · exact ⟨⟨fun _ => ⟨not_le.1 h1, h2⟩, fun _ => rfl⟩, by simp, rfl⟩
    · exact ⟨⟨fun hx => by simp at hx, fun hx => absurd hx.2 h2⟩, by simp, rfl⟩
  · have hreq : max (requiredDenom (apEnd dbP (monthBounds year month).2)
        minAbs minRatio) minDen
        = max minAbs (apEnd dbP (monthBounds year month).2 * minRatio) := by
      rw [requiredDenom_eq _ _ _ hratio]
      exact max_eq_left (hden.trans (le_max_left _ _))
    unfold repoDpo
    dsimp only
    simp only [hreq]
    split_ifs with h1 h2
    · exact ⟨⟨fun hx => by simp at hx, fun hx => absurd h1 (not_le.2 hx.1)⟩,
        by simp, rfl⟩
    · exact ⟨⟨fun _ => ⟨not_le.1 h1, h2⟩, fun _ => rfl⟩, by simp, rfl⟩
    · exact ⟨⟨fun hx => by simp at hx, fun hx => absurd hx.2 h2⟩, by simp, rfl⟩

/-- Witness: Scenario C — empty ledger, default thresholds (10000 abs,
0.10 relative, compat floor 1): zero month and trailing flow give
`value = none` for both metrics. -/
theorem credit_cycle_confidence_gate_witness :
    ((repoDso [] 2025 9 90 1 10000 (1/10)).value = none) ∧
    ((repoDpo [] 2025 9 90 1 10000 (1/10)).value = none) := by
  have h := credit_cycle_confidence_gate [] [] 2025 9 90 1 10000 (1/10)
    (by norm_num) (by norm_num)
  constructor
  · exact h.1.1.2 (by norm_num [salesBetween, arEnd])
  · exact h.2.1.2 (by norm_num [purchasesBetween, apEnd])

/-- C10: any action string outside the five registered CxC actions —
including every intent-mapped name the agent's logic can select — makes
`run_action` silently execute the generic metrics action and return the
generic metrics payload. -/
theorem run_action_unregistered_falls_back (store : CxcStore)
    (payload : CxcPayload) (params : CxcParams) (today : Nat × Nat)
    (action : String) (hnot : lookupCxcAction action = none) :
    (runActionCxc store action payload params today =
      runActionCxc store "metrics" payload params today) ∧
    (∀ ctx, buildContextCxc store (resolvePeriodCxc payload today)
        (resolveRefDate (resolvePeriodCxc payload today)) = .ok ctx →
      runActionCxc store action payload params today =
        .ok (actionMetrics ctx params)) ∧
    (∀ a ∈ ["cxc_due_between", "cxc_top_clients_open",
        "cxc_invoices_due_on", "cxc_partial_payments",
        "cxc_customer_open_balance_on"], lookupCxcAction a = none) ∧
    (∀ i : CxcIntentFlags, cxcSelectAction "" i = "metrics" ∨
      lookupCxcAction (cxcSelectAction "" i) = none) := by
  refine ⟨?_, ?_, ?_, ?_⟩
  · unfold runActionCxc
    rw [hnot]
    rfl
  · intro ctx hctx
    unfold runActionCxc
    dsimp only
    rw [hctx, hnot]
    rfl
  · intro a ha
    fin_cases ha <;> rfl
  · intro i
    unfold cxcSelectAction
    split_ifs <;> simp [lookupCxcAction]

theorem run_action_unregistered_falls_back_witness :
    runActionCxc emptyCxcStore "cxc_due_between" emptyCxcPayload
        emptyCxcParams (2025, 9) =
      runActionCxc emptyCxcStore "metrics" emptyCxcPayload emptyCxcParams
        (2025, 9) :=
  (run_action_unregistered_falls_back emptyCxcStore emptyCxcPayload
    emptyCxcParams (2025, 9) "cxc_due_between" rfl).1

lemma execModules_total (results : String → ModuleResult) :
    ∀ l : List String,
      execModules (fun a => .ok (results a)) l =
        .ok (l.map (fun a => (a, results a))) := by
  intro l
  induction l with
  | nil => rfl
  | cons a rest ih =>
    simp only [execModules, ih]
    rfl

lemma list_any_map {α β : Type} (l : List α) (f : α → β) (p : β → Bool) :
    (l.map f).any p = l.any (fun a => p (f a)) := by
  induction l with
  | nil => rfl
  | cons a t ih => simp [List.any_cons, ih]

lemma dedupPreservingOrder_ne_nil (selected : List String)
    (h : selected ≠ []) : dedupPreservingOrder selected ≠ [] := by
  unfold dedupPreservingOrder
  rcases selected with _ | ⟨x, xs⟩
  · exact absurd rfl h
  · have key : ∀ (l : List String) (acc : List String), acc ≠ [] →
        l.foldl (fun acc n => if n ∈ acc then acc else acc ++ [n]) acc ≠
          [] := by
      intro l
      induction l with
      | nil => intro acc hacc; simpa using hacc
      | cons y ys ih =>
        intro acc hacc
        simp only [List.foldl_cons]
        split_ifs with hy
        · exact ih acc hacc
        · exact ih _ (by simp)
    simpa using key xs [x] (by simp)

/-- The dispatch pipeline when every module returns (no escaping
exception): the full result as one equation. -/
lemma routerDispatch_total_eq (selected : List String)
    (results : String → ModuleResult)
    (gerente : List (String × ModuleResult) → ModuleResult)
    (hne : selected ≠ []) :
    (let seq0 := dedupPreservingOrder selected
     let seq :=
       if ("aaav_cxc" ∈ seq0 ∨ "aaav_cxp" ∈ seq0) ∧ "aav_contable" ∉ seq0
       then seq0 ++ ["aav_contable"] else seq0
     let nonCont := seq.filter (fun a => a ≠ "aav_contable")
     let runCont := seq.contains "aav_contable" ||
       nonCont.any (fun a => a == "aaav_cxc" && (results a).error == none) ||
       nonCont.any (fun a => a == "aaav_cxp" && (results a).error == none)
     let trace := nonCont.map (fun a => (a, results a)) ++
       (if runCont then [("aav_contable", results "aav_contable")] else [])
     routerDispatch selected (fun a => .ok (results a)) gerente =
       .ok { noSignal := false, moduleTrace := trace,
             gerenteInput := some trace,
             gerenteResult := some (gerente trace),
             executedOrder := (nonCont ++
               (if runCont then ["aav_contable"] else [])) ++
               ["av_gerente"] }) := by
  have hseq0 : dedupPreservingOrder selected ≠ [] :=
    dedupPreservingOrder_ne_nil selected hne
  have hnotempty :
      ¬ ((if ("aaav_cxc" ∈ dedupPreservingOrder selected ∨
            "aaav_cxp" ∈ dedupPreservingOrder selected) ∧
            "aav_contable" ∉ dedupPreservingOrder selected
          then dedupPreservingOrder selected ++ ["aav_contable"]
          else dedupPreservingOrder selected).isEmpty = true) := by
    intro hemp
    rw [List.isEmpty_iff] at hemp
    split_ifs at hemp with hf
    · simpa using congrArg List.length hemp
    · exact hseq0 hemp
  unfold routerDispatch
  dsimp only
  rw [if_neg hnotempty, execModules_total]
  dsimp only
  simp only [list_any_map]
  split_ifs with hrc <;>
    simp [List.map_append, List.map_map, Function.comp_def]

/-- C6: for every dispatch with a non-empty module selection (all
modules returning), the non-consolidation modules run first in selection
order; the consolidation module `aav_contable` runs after them exactly
when it was selected (directly or auto-appended) or a receivable /
payable entry is error-free; and the synthesizer `av_gerente` runs
strictly last, over the full module trace. -/
theorem router_execution_order (selected : List String)
    (results : String → ModuleResult)
    (gerente : List (String × ModuleResult) → ModuleResult)
    (hne : selected ≠ []) :
    (let seq0 := dedupPreservingOrder selected
     let seq :=
       if ("aaav_cxc" ∈ seq0 ∨ "aaav_cxp" ∈ seq0) ∧ "aav_contable" ∉ seq0
       then seq0 ++ ["aav_contable"] else seq0
     let nonCont := seq.filter (fun a => a ≠ "aav_contable")
     let runCont := seq.contains "aav_contable" ||
       nonCont.any (fun a => a == "aaav_cxc" && (results a).error == none) ||
       nonCont.any (fun a => a == "aaav_cxp" && (results a).error == none)
     let trace := nonCont.map (fun a => (a, results a)) ++
       (if runCont then [("aav_contable", results "aav_contable")] else [])
     routerDispatch selected (fun a => .ok (results a)) gerente =
       .ok { noSignal := false, moduleTrace := trace,
             gerenteInput := some trace,
             gerenteResult := some (gerente trace),
             executedOrder := (nonCont ++
               (if runCont then ["aav_contable"] else [])) ++
               ["av_gerente"] }) :=
  routerDispatch_total_eq selected results gerente hne

theorem router_execution_order_witness :
    routerDispatch ["aaav_cxp"] (fun a =>
        .ok ((fun _ => constModuleResult) a)) constGerente =
      .ok { noSignal := false,
            moduleTrace := [("aaav_cxp", constModuleResult),
              ("aav_contable", constModuleResult)],
            gerenteInput := some [("aaav_cxp", constModuleResult),
              ("aav_contable", constModuleResult)],
            gerenteResult := some constModuleResult,
            executedOrder := ["aaav_cxp", "aav_contable", "av_gerente"] } := by
  have h := router_execution_order ["aaav_cxp"] (fun _ => constModuleResult)
    constGerente (by simp)
  simpa [dedupPreservingOrder, constGerente] using h

/-- C5 (amended): a failure of the CxC module's base-context (aging)
store query is caught at the module boundary — `run_action` returns the
error-tagged dictionary instead of raising — and such an error-tagged
module feeds the trace without stopping the router: every module of the
sequence still contributes its trace entry.  (A query failure escaping
an action handler is NOT caught; see the counterexample.) -/
theorem module_context_query_failure_degrades (store : CxcStore)
    (e : String) (hfail : store.agingQuery = .error e) (action : String)
    (payload : CxcPayload) (params : CxcParams) (today : Nat × Nat)
    (selected : List String) (others : String → ModuleResult)
    (gerente : List (String × ModuleResult) → ModuleResult)
    (hne : selected ≠ []) :
    (runActionCxc store action payload params today =
      .ok { error := some ("Error leyendo CxC DB: " ++ e), summary := none,
            data := none, dso := none, result := none }) ∧
    (let results := fun a =>
      if a = "aaav_cxc" then errCxcModuleResult e else others a
     let seq0 := dedupPreservingOrder selected
     let seq :=
       if ("aaav_cxc" ∈ seq0 ∨ "aaav_cxp" ∈ seq0) ∧ "aav_contable" ∉ seq0
       then seq0 ++ ["aav_contable"] else seq0
     let nonCont := seq.filter (fun a => a ≠ "aav_contable")
     ∃ out, routerDispatch selected (fun a => .ok (results a)) gerente =
         .ok out ∧
       ("aaav_cxc" ∈ nonCont →
         ("aaav_cxc", errCxcModuleResult e) ∈ out.moduleTrace) ∧
       (∀ a ∈ nonCont, (a, results a) ∈ out.moduleTrace)) := by
  constructor
  · simp only [runActionCxc, buildContextCxc, hfail]
  · refine ⟨_, routerDispatch_total_eq selected
      (fun a => if a = "aaav_cxc" then errCxcModuleResult e else others a)
      gerente hne, ?_, ?_⟩
    · intro hmem
      dsimp only
      refine List.mem_append_left _ ?_
      have heq : (fun x => (x,
          if x = "aaav_cxc" then errCxcModuleResult e else others x))
            "aaav_cxc" = ("aaav_cxc", errCxcModuleResult e) := by simp
      exact heq ▸ List.mem_map_of_mem _ hmem
    · intro a ha
      dsimp only
      exact List.mem_append_left _ (List.mem_map_of_mem _ ha)

theorem module_context_query_failure_degrades_witness :
    (runActionCxc storeAgingFails "metrics" emptyCxcPayload emptyCxcParams
        (2025, 9) =
      .ok { error := some ("Error leyendo CxC DB: " ++ "boom"),
            summary := none, data := none, dso := none, result := none }) ∧
    (let results := fun a =>
      if a = "aaav_cxc" then errCxcModuleResult "boom"
      else (fun _ => constModuleResult) a
     let seq0 := dedupPreservingOrder ["aaav_cxc", "aaav_cxp"]
     let seq :=
       if ("aaav_cxc" ∈ seq0 ∨ "aaav_cxp" ∈ seq0) ∧ "aav_contable" ∉ seq0
       then seq0 ++ ["aav_contable"] else seq0
     let nonCont := seq.filter (fun a => a ≠ "aav_contable")
     ∃ out, routerDispatch ["aaav_cxc", "aaav_cxp"]
         (fun a => .ok (results a)) constGerente = .ok out ∧
       ("aaav_cxc" ∈ nonCont →
         ("aaav_cxc", errCxcModuleResult "boom") ∈ out.moduleTrace) ∧
       (∀ a ∈ nonCont, (a, results a) ∈ out.moduleTrace)) :=
  module_context_query_failure_degrades storeAgingFails "boom" rfl "metrics"
    emptyCxcPayload emptyCxcParams (2025, 9) ["aaav_cxc", "aaav_cxp"]
    (fun _ => constModuleResult) constGerente (by simp)

/-- C4: the KPI board of the final report is unconditionally the
deterministic formatted lines computed from the numeric KPI inputs —
independent of whatever board the narrative emitted — and when the
narrative call fails or is unparseable the fallback report has every
field present with the same deterministic KPI board. -/
theorem kpi_board_deterministic (k : GerenteKpis) (op : OpTotals)
    (detOrders : List Orden) (causalTrad : List String)
    (llmOut : Option GerenteReport) :
    ((gerenteHandle k op detOrders causalTrad llmOut).bscFinanzas =
      some (kpiBoardLines k op)) ∧
    (llmOut = none →
      (gerenteHandle k op detOrders causalTrad none).complete) := by
  constructor
  · cases llmOut <;> rfl
  · intro _
    simp [gerenteHandle, fallbackReport, GerenteReport.complete]

theorem kpi_board_deterministic_witness :
    ((gerenteHandle ⟨none, none, none⟩ ⟨none, none, none, none, none⟩ []
        [] none).bscFinanzas =
      some (kpiBoardLines ⟨none, none, none⟩
        ⟨none, none, none, none, none⟩)) ∧
    (gerenteHandle ⟨none, none, none⟩ ⟨none, none, none, none, none⟩ []
      [] none).complete := by
  have h := kpi_board_deterministic ⟨none, none, none⟩
    ⟨none, none, none, none, none⟩ [] [] none
  exact ⟨h.1, h.2 rfl⟩

lemma charsContain_append_right (pre mid post : List Char) :
    charsContain (pre ++ mid ++ post) mid = true := by
  induction pre with
  | nil =>
    cases mid with
    | nil => cases post <;> simp [charsContain]
    | cons c rest =>
      simp only [List.nil_append, charsContain, Bool.or_eq_true]
      exact Or.inl (List.isPrefixOf_iff_prefix.2
        (by exact ⟨post, by simp⟩))
  | cons c pre ih =>
    cases mid with
    | nil => cases pre ++ [] ++ post <;> simp [charsContain]
    | cons d rest =>
      simp only [List.cons_append, charsContain, Bool.or_eq_true]
      exact Or.inr ih

/-- A string built around `mid` contains `mid`. -/
lemma strContains_of_parts (pre mid post : String) :
    strContains (pre ++ mid ++ post) mid = true := by
  unfold strContains
  have h : (pre ++ mid ++ post).toList =
      pre.toList ++ mid.toList ++ post.toList := rfl
  rw [h]
  exact charsContain_append_right _ _ _

/-- C7: when the Intent marks a single-counterparty balance question
(`saldo_cliente_cxc`) and the deterministic lookup is available, the
executive summary is the templated sentence rendered from the lookup
fields — independent of the narrative backend — and for a positive
invoice count the rendered monetary figure is exactly the lookup's
`saldo`. -/
theorem point_answer_bypasses_narrative (intent : SummaryIntent)
    (ctx : SummaryCtx) (periodText : Option String)
    (llmA llmB : Option String) (c : CustLookup)
    (hflag : intent.saldoClienteCxc = true)
    (hc : ctx.saldoCliente = some c)
    (havail : c.saldo.isSome ∨ c.countFacturas.isSome) :
    (generateExecutiveSummary intent ctx periodText llmA =
      some (cxc08Summary (date10 (pickStr [c.asOf, periodText]))
        (let c0 := (c.customer.getD "").trim
         if c0 ≠ "" then c0 else "el cliente consultado")
        (c.saldo.getD 0) (c.countFacturas.getD 0))) ∧
    (generateExecutiveSummary intent ctx periodText llmA =
      generateExecutiveSummary intent ctx periodText llmB) ∧
    (0 < c.countFacturas.getD 0 →
      strContains (cxc08Summary (date10 (pickStr [c.asOf, periodText]))
        (let c0 := (c.customer.getD "").trim
         if c0 ≠ "" then c0 else "el cliente consultado")
        (c.saldo.getD 0) (c.countFacturas.getD 0))
        ("₡" ++ formatFixed (c.saldo.getD 0) 2 true) = true) := by
  have hcond : intent.saldoClienteCxc ∧
      ((ctx.saldoCliente.getD emptyCustLookup).saldo.isSome ∨
        (ctx.saldoCliente.getD emptyCustLookup).countFacturas.isSome) := by
    rw [hc]
    exact ⟨hflag, havail⟩
  refine ⟨?_, ?_, ?_⟩
  · unfold generateExecutiveSummary
    rw [if_pos hcond, hc]
    simp
  · unfold generateExecutiveSummary
    rw [if_pos hcond, if_pos hcond]
  · intro hcnt
    unfold cxc08Summary
    rw [if_pos hcnt]
    exact strContains_of_parts _ _ _

theorem point_answer_bypasses_narrative_witness :
    (generateExecutiveSummary ⟨true, false, false, false⟩
        ⟨some custLookupAcme, none, none, none⟩ (some "2025-09")
        (some "narrativa libre") =
      some (cxc08Summary
        (date10 (pickStr [custLookupAcme.asOf, some "2025-09"]))
        (let c0 := (custLookupAcme.customer.getD "").trim
         if c0 ≠ "" then c0 else "el cliente consultado")
        (custLookupAcme.saldo.getD 0)
        (custLookupAcme.countFacturas.getD 0))) ∧
    (generateExecutiveSummary ⟨true, false, false, false⟩
        ⟨some custLookupAcme, none, none, none⟩ (some "2025-09")
        (some "narrativa libre") =
      generateExecutiveSummary ⟨true, false, false, false⟩
        ⟨some custLookupAcme, none, none, none⟩ (some "2025-09") none) ∧
    (0 < custLookupAcme.countFacturas.getD 0 →
      strContains (cxc08Summary
        (date10 (pickStr [custLookupAcme.asOf, some "2025-09"]))
        (let c0 := (custLookupAcme.customer.getD "").trim
         if c0 ≠ "" then c0 else "el cliente consultado")
        (custLookupAcme.saldo.getD 0)
        (custLookupAcme.countFacturas.getD 0))
        ("₡" ++ formatFixed (custLookupAcme.saldo.getD 0) 2 true) = true) :=
  point_answer_bypasses_narrative ⟨true, false, false, false⟩
    ⟨some custLookupAcme, none, none, none⟩ (some "2025-09")
    (some "narrativa libre") none custLookupAcme rfl rfl
    (Or.inl rfl)

lemma applyDirectionGuard_one_sided (i : Intent) :
    (((applyDirectionGuard i).cxcSpecificB = true ∧
      (applyDirectionGuard i).cxpSpecificB = false) →
        (applyDirectionGuard i).cxp = false) ∧
    (((applyDirectionGuard i).cxpSpecificB = true ∧
      (applyDirectionGuard i).cxcSpecificB = false) →
        (applyDirectionGuard i).cxc = false) := by
  unfold applyDirectionGuard
  dsimp only
  rcases hc : i.cxcSpecificB <;> rcases hp : i.cxpSpecificB <;>
    simp_all [Intent.cxcSpecificB, Intent.cxpSpecificB]
  exact ⟨by intros; simp_all, by intros; simp_all⟩

set_option maxHeartbeats 4000000 in
/-- C8 counterexample: the question `"aging cxp vencen hoy 2025-10-01"`
sets both a receivable-specific flag (`vencen_hoy_cxc`) and a
payable-specific flag (`aging_cxp`) in the returned Intent: when both
groups fire, neither guard branch runs and the groups are NOT mutually
exclusive (both generic flags stay true as well). -/
theorem direction_guard_not_exclusive :
    routeIntent ("aging cxp vencen hoy 2025-10-01".toList)
        LlmOutcome.failed =
      { cxc := true, cxp := true, informe := false, aging := true,
        vencimientosRango := false, topClientesCxc := false,
        vencenHoyCxc := true, cxcPagoParcial := false,
        saldoClienteCxc := false, cxpAbiertasResumen := false,
        agingCxp := true, topProveedoresCxp := false,
        saldoProveedorCxp := false,
        reason := "Heurística por palabras clave" } := by
  rfl

/-- C8 (amended): after the direction guard, mutual exclusivity holds
one-sidedly — whenever exactly one direction's specific group contains a
true flag, the opposite direction's generic flag is false (and its
specific flags are all false); when both groups fire simultaneously the
guard leaves both directions active. -/
theorem direction_guard_one_sided (question : List Char)
    (llm : LlmOutcome) :
    (((routeIntent question llm).cxcSpecificB = true ∧
      (routeIntent question llm).cxpSpecificB = false) →
        (routeIntent question llm).cxp = false) ∧
    (((routeIntent question llm).cxpSpecificB = true ∧
      (routeIntent question llm).cxcSpecificB = false) →
        (routeIntent question llm).cxc = false) := by
  unfold routeIntent
  dsimp only
  by_cases h : (routeIntentHeuristic question).anyFlag = true
  · rw [if_pos h]
    exact applyDirectionGuard_one_sided (routeIntentHeuristicPre question)
  · rw [if_neg h]
    cases llm with
    | failed =>
      simp [routeIntentLlm, Intent.cxcSpecificB, Intent.cxpSpecificB]
    | parsed cxc cxp informe aging vr tc vh pp sc ar ac tp sp reason =>
      exact applyDirectionGuard_one_sided _

set_option maxHeartbeats 4000000 in
theorem direction_guard_one_sided_witness :
    (routeIntent ("top proveedores por saldo cxp al 2025-10-01".toList)
      LlmOutcome.failed).cxc = false :=
  (direction_guard_one_sided
    ("top proveedores por saldo cxp al 2025-10-01".toList)
    LlmOutcome.failed).2 ⟨rfl, rfl⟩

lemma daysInMonth_pos (y m : Nat) : 1 ≤ daysInMonth y m := by
  unfold daysInMonth
  split_ifs <;> norm_num

lemma foldl_add_eq_sum (f : Nat → Nat) :
    ∀ (l : List Nat) (a : Nat),
      l.foldl (fun acc i => acc + f i) a = a + (l.map f).sum := by
  intro l
  induction l with
  | nil => intro a; simp
  | cons x rest ih =>
    intro a
    simp only [List.foldl_cons, List.map_cons, List.sum_cons, ih]
    ring

lemma sum_map_range_mono (f : Nat → Nat) {a b : Nat} (h : a ≤ b) :
    ((List.range a).map f).sum ≤ ((List.range b).map f).sum := by
  induction h with
  | refl => exact le_rfl
  | step _ ih =>
    refine ih.trans ?_
    rw [List.range_succ]
    simp

lemma daysBeforeMonth_mono (y : Nat) {m1 m2 : Nat} (h : m1 ≤ m2) :
    daysBeforeMonth y m1 ≤ daysBeforeMonth y m2 := by
  unfold daysBeforeMonth
  rw [foldl_add_eq_sum, foldl_add_eq_sum]
  simpa using sum_map_range_mono (fun i => daysInMonth y (i + 1))
    (Nat.sub_le_sub_right h 1)

lemma secsOfDate_mono (y : Nat) {m1 m2 d1 d2 hh1 mi1 ss1 hh2 mi2 ss2 : Nat}
    (hord : dateOrdinal y m1 d1 ≤ dateOrdinal y m2 d2)
    (ht : hh1 * 3600 + mi1 * 60 + ss1 ≤ hh2 * 3600 + mi2 * 60 + ss2) :
    secsOfDate y m1 d1 hh1 mi1 ss1 ≤ secsOfDate y m2 d2 hh2 mi2 ss2 := by
  unfold secsOfDate
  omega

lemma dateOrdinal_mono_same_month (y m : Nat) {d1 d2 : Nat}
    (hd : d1 ≤ d2) : dateOrdinal y m d1 ≤ dateOrdinal y m d2 := by
  unfold dateOrdinal
  omega

lemma dateOrdinal_mono_month (y : Nat) {m1 m2 d2 : Nat} (hm : m1 ≤ m2)
    (hd2 : 1 ≤ d2) : dateOrdinal y m1 1 ≤ dateOrdinal y m2 d2 := by
  unfold dateOrdinal
  have := daysBeforeMonth_mono y hm
  omega

lemma mkDT_some_eq {y m d hh mi ss : Nat} {a : Int}
    (h : mkDT y m d hh mi ss = some a) :
    a = secsOfDate y m d hh mi ss ∧ 1 ≤ d ∧ d ≤ daysInMonth y m := by
  unfold mkDT at h
  split_ifs at h with hv
  exact ⟨(Option.some.inj h).symm, hv.2.2.1, hv.2.2.2⟩

/-- A `mkDT` success at day `d1` is at most one at day `d2 ≥ d1` of the
same month with a later time of day. -/
lemma mkDT_le_same_month {y m d1 d2 hh1 mi1 ss1 hh2 mi2 ss2 : Nat}
    {a b : Int} (ha : mkDT y m d1 hh1 mi1 ss1 = some a)
    (hb : mkDT y m d2 hh2 mi2 ss2 = some b) (hd : d1 ≤ d2)
    (ht : hh1 * 3600 + mi1 * 60 + ss1 ≤ hh2 * 3600 + mi2 * 60 + ss2) :
    a ≤ b := by
  rw [(mkDT_some_eq ha).1, (mkDT_some_eq hb).1]
  exact secsOfDate_mono y (dateOrdinal_mono_same_month y m hd) ht

/-- A month start is at most any later month's end. -/
lemma startOfMonth_le_endOfMonth {y m1 m2 : Nat} {a b : Int}
    (ha : startOfMonthDT y m1 = some a) (hb : endOfMonthDT y m2 = some b)
    (hm : m1 ≤ m2) : a ≤ b := by
  rw [(mkDT_some_eq ha).1, (mkDT_some_eq hb).1]
  exact secsOfDate_mono y
    (dateOrdinal_mono_month y hm (mkDT_some_eq hb).2.1) (by omega)

lemma monthWindowDT_le {y m : Nat} {w : Int × Int}
    (h : monthWindowDT y m = some w) : w.1 ≤ w.2 := by
  unfold monthWindowDT at h
  rcases hs : startOfMonthDT y m with _ | s <;> rw [hs] at h
  · exact absurd h (by simp [Option.bind])
  · rcases he : endOfMonthDT y m with _ | e <;> rw [he] at h
    · exact absurd h (by simp [Option.bind])
    · have hw := Option.some.inj (by simpa [Option.bind] using h)
      rw [← hw]
      exact startOfMonth_le_endOfMonth hs he (le_refl m)

lemma floorDay_mono {a b : Int} (h : a ≤ b) : floorDay a ≤ floorDay b := by
  unfold floorDay
  omega

/-- C9 (amended): every resolver branch yields `start ≤ end`, provided
the override (returned verbatim) itself satisfies `start ≤ end` and an
explicit day range is not reversed (`D1 ≤ D2`); a reversed day range or
a reversed override is reproduced as-is (see the counterexample). -/
theorem resolve_period_start_le_end (override : Option OverrideDict)
    (shape : NLShape) (now : NowInfo) (r : ResolvedPeriod)
    (hov : ∀ o, override = some o → o.start ≤ o.stop)
    (hdr : ∀ d1 d2 month year, shape = .dayRange d1 d2 month year →
      d1 ≤ d2)
    (hres : resolvePeriodRouter override shape now = some r) :
    r.start ≤ r.stop := by
  unfold resolvePeriodRouter at hres
  rcases override with _ | o
  case some =>
    dsimp only at hres
    have h := Option.some.inj hres
    rw [← h]
    exact hov o rfl
  case none =>
  cases shape <;> dsimp only at hres
  case dayRange d1 d2 month year =>
    rcases ha : mkDT (year.getD now.y) month d1 0 0 0 with _ | s <;>
      rw [ha] at hres
    · simp at hres
    · rcases hb : mkDT (year.getD now.y) month d2 23 59 59 with _ | e <;>
        rw [hb] at hres
      · simp at hres
      · have h := Option.some.inj hres
        rw [← h]
        exact mkDT_le_same_month ha hb
          (hdr d1 d2 month year rfl) (by omega)
  case isoDate y mo d =>
    rcases hw : monthWindowDT y mo with _ | w <;> rw [hw] at hres
    · simp at hres
    · have h := Option.some.inj (by simpa using hres)
      rw [← h]
      exact monthWindowDT_le hw
  case yearMonth y mo =>
    split_ifs at hres
    · rcases hw : monthWindowDT y mo with _ | w <;> rw [hw] at hres
      · simp at hres
      · have h := Option.some.inj (by simpa using hres)
        rw [← h]
        exact monthWindowDT_le hw
    · rcases hw : monthWindowDT now.y now.m with _ | w <;>
        rw [hw] at hres
      · simp at hres
      · have h := Option.some.inj (by simpa using hres)
        rw [← h]
        exact monthWindowDT_le hw
  case latamDate d mo y =>
    rcases hw : monthWindowDT (if y < 100 then y + 2000 else y) mo
      with _ | w <;> rw [hw] at hres
    · simp at hres
    · have h := Option.some.inj (by simpa using hres)
      rw [← h]
      exact monthWindowDT_le hw
  case spanishDate d month year =>
    rcases hw : monthWindowDT (year.getD now.y) month with _ | w <;>
      rw [hw] at hres
    · simp at hres
    · have h := Option.some.inj (by simpa using hres)
      rw [← h]
      exact monthWindowDT_le hw
  case quarter q y =>
    rcases hs : startOfMonthDT y (3 * q - 2) with _ | s <;>
      rw [hs] at hres
    · simp at hres
    · rcases he : endOfMonthDT y (3 * q) with _ | e <;> rw [he] at hres
      · simp at hres
      · have h := Option.some.inj (by simpa using hres)
        rw [← h]
        exact startOfMonth_le_endOfMonth hs he (by omega)
  case monthYear month y =>
    rcases hw : monthWindowDT y month with _ | w <;> rw [hw] at hres
    · simp at hres
    · have h := Option.some.inj (by simpa using hres)
      rw [← h]
      exact monthWindowDT_le hw
  case bareMonth month =>
    rcases hw : monthWindowDT
      (if month > now.m + 1 then now.y - 1 else now.y) month with _ | w <;>
      rw [hw] at hres
    · simp at hres
    · have h := Option.some.inj (by simpa using hres)
      rw [← h]
      exact monthWindowDT_le hw
  case estaSemana =>
    have h := Option.some.inj hres
    rw [← h]
    simp only []
    omega
  case esteMes =>
    rcases hw : monthWindowDT now.y now.m with _ | w <;> rw [hw] at hres
    · simp at hres
    · have h := Option.some.inj (by simpa using hres)
      rw [← h]
      exact monthWindowDT_le hw
  case mesPasado =>
    rcases hw : monthWindowDT
      (if now.m = 1 then (now.y - 1, 12) else (now.y, now.m - 1)).1
      (if now.m = 1 then (now.y - 1, 12) else (now.y, now.m - 1)).2
      with _ | w <;> rw [hw] at hres
    · simp at hres
    · have h := Option.some.inj (by simpa using hres)
      rw [← h]
      exact monthWindowDT_le hw
  case hoy =>
    have h := Option.some.inj hres
    rw [← h]
    simp only []
    omega
  case ultimos30 =>
    have h := Option.some.inj hres
    rw [← h]
    have := floorDay_mono (show now.secs - 29 * 86400 ≤ now.secs by omega)
    simp only []
    omega
  case nothing =>
    rcases hw : monthWindowDT now.y now.m with _ | w <;> rw [hw] at hres
    · simp at hres
    · have h := Option.some.inj (by simpa using hres)
      rw [← h]
      exact monthWindowDT_le hw

theorem resolve_period_start_le_end_witness :
    witnessResolved.start ≤ witnessResolved.stop :=
  resolve_period_start_le_end none (NLShape.dayRange 5 20 10 (some 2025))
    nowOct2025 witnessResolved (fun o ho => by cases ho)
    (fun d1 d2 month year hsh => by cases hsh; omega) (by rfl)

/-- C9 counterexample: the reversed explicit day range
`"del 20 al 5 de octubre de 2025"` resolves to a window with
`start > end` (the resolver builds `start` from the first day and `end`
from the second verbatim). -/
theorem resolve_period_reversed_range :
    (resolvePeriodRouter none (NLShape.dayRange 20 5 10 (some 2025))
        nowOct2025).map (fun r => decide (r.start ≤ r.stop)) =
      some false := by
  rfl

/-- C5 counterexample: a store query raising inside an action handler
(`_list_top_overdue_db`) is caught nowhere — `run_action` propagates the
exception, the dispatch loop catches only `TypeError`, and the whole
dispatch aborts with no trace instead of continuing with the remaining
modules. -/
theorem router_aborts_on_action_query_raise :
    runActionCxc storeActionRaises "top_overdue" emptyCxcPayload
        emptyCxcParams (2025, 9) = .error "db down" ∧
    routerDispatch ["aaav_cxc", "aaav_cxp"] cxcRaisingBehavior
        constGerente = .error "db down" := by
  constructor <;> rfl
